import Mathlib

/-!
Verification of the k8s-analyzer core (models.py, parser.py, analyzer.py):
a shallow embedding of the resource data model, the export parser, the file
discovery helpers and the relationship/health analyzer, followed by theorems
settling the specification claims.

Conventions of the embedding:
- Python `Dict[str, str]` payloads (labels, annotations, selectors) are
  association lists `List (String × String)` read through `dictGet`.
- Python `Optional` values are `Option`; the truthiness test `if x:` on an
  optional string is `strTruthy` (both `None` and `""` are falsy).
- Python f-string interpolation of a possibly-`None` value renders `None`
  as the literal string "None"; `optStr` reproduces this.
- `datetime` values only matter through their presence, so timestamps are
  kept as the raw `Option String`.
- The untyped `spec`/`status` dict payloads are represented by structures
  holding exactly the fields the analyzer reads; an absent key is `none`
  (or `[]` for list-valued keys), mirroring `dict.get` defaults.
-/

namespace K8sAnalyzer

/-- RelationshipType from models.py: the closed set of edge kinds. -/
inductive RelationshipType where
  | owns
  | uses
  | exposes
  | binds
  | references
  | depends_on
  | manages
  | selects
deriving DecidableEq

/-- RelationshipDirection from models.py. -/
inductive RelationshipDirection where
  | outbound
  | inbound
  | bidirectional
deriving DecidableEq

/-- ResourceStatus from models.py: the health verdict of a resource. -/
inductive ResourceStatus where
  | healthy
  | warning
  | error
  | unknown
deriving DecidableEq

/-- Lookup in a string-keyed dict payload (Python `d.get(k)`). -/
def dictGet (d : List (String × String)) (k : String) : Option String :=
  match d with
  | [] => none
  | e :: rest => if e.1 == k then some e.2 else dictGet rest k

/-- Truthiness of an optional string: Python treats both None and "" as falsy. -/
def strTruthy : Option String → Bool
  | none => false
  | some s => s != ""

/-- Python f-string rendering of a possibly-None string (None prints as "None"). -/
def optStr : Option String → String
  | none => "None"
  | some s => s

/-- Values stored in the free-form metadata dict attached to a relationship. -/
inductive AttrVal where
  | s (v : String)
  | b (v : Bool)
  | d (v : List (String × String))
  | null
deriving DecidableEq

/-- Rendering of an optional string into an AttrVal (Python stores the raw value,
None included). -/
def attrOfOpt : Option String → AttrVal
  | none => AttrVal.null
  | some v => AttrVal.s v

/-- One entry of metadata.ownerReferences: an opaque dict read through `.get`,
so every field is optional. -/
structure OwnerRef where
  apiVersion : Option String := none
  kind : Option String := none
  name : Option String := none
  uid : Option String := none
deriving DecidableEq

/-- ResourceMetadata from models.py.  The `namespace` field is called `nspace`
because `namespace` is a Lean keyword.  Timestamps are kept as raw strings:
only their presence is ever inspected. -/
structure ResourceMetadata where
  name : String
  nspace : Option String := none
  uid : Option String := none
  resource_version : Option String := none
  generation : Option Int := none
  creation_timestamp : Option String := none
  deletion_timestamp : Option String := none
  labels : List (String × String) := []
  annotations : List (String × String) := []
  owner_references : List OwnerRef := []
  finalizers : List String := []
deriving DecidableEq

/-- ResourceReference from models.py.  The class overrides only `__hash__`
(and `__str__`); equality is pydantic's field-by-field model equality over
all five fields, which the derived structure equality models. -/
structure ResourceReference where
  api_version : String
  kind : String
  name : String
  nspace : Option String := none
  uid : Option String := none
deriving DecidableEq

/-- The tuple `(api_version, kind, name, namespace)` that ResourceReference
feeds to Python's `hash` in its `__hash__` override.  Python's hash is a
deterministic function of this tuple, so hashing behaviour is modelled by
the tuple itself. -/
def ResourceReference.hash_input (r : ResourceReference) :
    String × String × String × Option String :=
  (r.api_version, r.kind, r.name, r.nspace)

/-- String form of a ResourceReference (models.py __str__):
Kind/name/namespace when namespaced, Kind/name otherwise. -/
def ResourceReference.toStr (r : ResourceReference) : String :=
  if strTruthy r.nspace then r.kind ++ "/" ++ r.name ++ "/" ++ optStr r.nspace
  else r.kind ++ "/" ++ r.name

/-- ResourceRelationship from models.py: a directed, typed edge between two
resource references plus free-form metadata. -/
structure ResourceRelationship where
  source : ResourceReference
  target : ResourceReference
  relationship_type : RelationshipType
  direction : RelationshipDirection := RelationshipDirection.outbound
  metadata : List (String × AttrVal) := []
deriving DecidableEq

/-- Reference to a key inside a ConfigMap or Secret (the `configMapKeyRef` /
`secretKeyRef` dicts); only `name` is read. -/
structure KeyRefSource where
  name : Option String := none
deriving DecidableEq

/-- The `valueFrom` dict of a container environment variable.  `none` on a
field models both an absent key and an empty dict (both falsy in the code). -/
structure EnvValueFrom where
  configMapKeyRef : Option KeyRefSource := none
  secretKeyRef : Option KeyRefSource := none
deriving DecidableEq

/-- One entry of a container's `env` list. -/
structure EnvVar where
  valueFrom : Option EnvValueFrom := none
deriving DecidableEq

/-- One entry of a container's `volumeMounts` list; only `name` is read. -/
structure VolumeMount where
  name : Option String := none
deriving DecidableEq

/-- One entry of a pod spec's `containers` list, restricted to the fields the
analyzer reads. -/
structure Container where
  name : Option String := none
  env : List EnvVar := []
  volumeMounts : List VolumeMount := []
deriving DecidableEq

/-- The `persistentVolumeClaim` dict of a volume; only `claimName` is read. -/
structure PvcSource where
  claimName : Option String := none
deriving DecidableEq

/-- The `configMap` dict of a volume; only `name` is read. -/
structure ConfigMapSource where
  name : Option String := none
deriving DecidableEq

/-- The `secret` dict of a volume; only `secretName` is read. -/
structure SecretSource where
  secretName : Option String := none
deriving DecidableEq

/-- One entry of a pod spec's `volumes` list.  A `some` on the three source
fields models a present (hence truthy, for membership tests) sub-dict. -/
structure Volume where
  name : Option String := none
  persistentVolumeClaim : Option PvcSource := none
  configMap : Option ConfigMapSource := none
  secret : Option SecretSource := none
deriving DecidableEq

/-- One entry of a RoleBinding spec's `subjects` list. -/
structure Subject where
  kind : Option String := none
  name : Option String := none
  nspace : Option String := none
deriving DecidableEq

/-- The opaque `spec` payload, restricted to the keys the analyzer and the
kind-specialized accessors read.  `dict.get(key, default)` semantics: list
fields default to `[]`, `selector` to `{}`, the rest to absent. -/
structure ResourceSpec where
  containers : List Container := []
  volumes : List Volume := []
  serviceAccountName : Option String := none
  nodeName : Option String := none
  selector : List (String × String) := []
  subjects : List Subject := []
deriving DecidableEq

/-- One entry of `status.containerStatuses`; `ready` defaults to False and
`restartCount` to 0, exactly as the `.get` defaults in `_assess_pod_health`. -/
structure ContainerStatus where
  name : Option String := none
  ready : Bool := false
  restartCount : Int := 0
deriving DecidableEq

/-- One entry of a status `conditions` list. -/
structure Condition where
  type : Option String := none
  status : Option String := none
deriving DecidableEq

/-- The `loadBalancer` dict of a Service status; only `ingress` is read, and
only for emptiness. -/
structure LoadBalancer where
  ingress : List (List (String × String)) := []
deriving DecidableEq

/-- The opaque `status` payload, restricted to the keys the analyzer reads.
A `some` field models a present key (`"volumeName" in status` is a key
membership test, `loadBalancer` likewise). -/
structure StatusPayload where
  phase : Option String := none
  containerStatuses : List ContainerStatus := []
  conditions : List Condition := []
  loadBalancer : Option LoadBalancer := none
  volumeName : Option String := none
deriving DecidableEq

/-- KubernetesResource from models.py.  The kind-specialized Python classes
(Pod, Service, ConfigMap, PersistentVolumeClaim, Node) are created by the
parser's kind-to-class mapping, so class membership coincides with the
`kind` discriminator; the embedding keeps the single structure and the
passes branch on `kind`. -/
structure KubernetesResource where
  api_version : String
  kind : String
  metadata : ResourceMetadata
  spec : ResourceSpec := {}
  status : Option StatusPayload := none
  relationships : List ResourceRelationship := []
  health_status : ResourceStatus := ResourceStatus.unknown
  issues : List String := []
deriving DecidableEq

/-- The identity-and-payload part of a resource: every field except the
derived ones (`relationships`, `health_status`, `issues`).  All analyzer
passes read resources only through this projection. -/
structure ResourceCore where
  api_version : String
  kind : String
  metadata : ResourceMetadata
  spec : ResourceSpec
  status : Option StatusPayload
deriving DecidableEq

/-- Projection of a resource onto its core. -/
def KubernetesResource.core (r : KubernetesResource) : ResourceCore :=
  ⟨r.api_version, r.kind, r.metadata, r.spec, r.status⟩

/-- The `ref` property computed from the core fields. -/
def ResourceCore.ref (c : ResourceCore) : ResourceReference :=
  { api_version := c.api_version, kind := c.kind, name := c.metadata.name,
    nspace := c.metadata.nspace, uid := c.metadata.uid }

/-- KubernetesResource.ref from models.py: the reference of a resource. -/
def KubernetesResource.ref (r : KubernetesResource) : ResourceReference :=
  r.core.ref

/-- The `full_name` property computed from the core fields:
Kind/name/namespace when the namespace is truthy, Kind/name otherwise. -/
def ResourceCore.full_name (c : ResourceCore) : String :=
  if strTruthy c.metadata.nspace then
    c.kind ++ "/" ++ c.metadata.name ++ "/" ++ optStr c.metadata.nspace
  else c.kind ++ "/" ++ c.metadata.name

/-- KubernetesResource.full_name from models.py. -/
def KubernetesResource.full_name (r : KubernetesResource) : String :=
  r.core.full_name

/-- KubernetesResource.add_relationship from models.py: appends one edge,
sourced at this resource's ref and targeting the other resource's ref. -/
def KubernetesResource.add_relationship (r : KubernetesResource)
    (target : KubernetesResource) (relationship_type : RelationshipType)
    (direction : RelationshipDirection) (md : List (String × AttrVal)) :
    KubernetesResource :=
  { r with relationships := r.relationships ++
      [{ source := r.ref, target := target.ref,
         relationship_type := relationship_type, direction := direction,
         metadata := md }] }

/-- Pod.service_account from models.py: `spec.get("serviceAccountName", "default")`. -/
def KubernetesResource.service_account (r : KubernetesResource) : String :=
  r.spec.serviceAccountName.getD "default"

/-- Running totals of one health-status count per verdict, the
`status_counts` dict of generate_summary (initialized to 0 for every
member of the enum). -/
structure StatusCounts where
  healthy : Nat := 0
  warning : Nat := 0
  error : Nat := 0
  unknown : Nat := 0
deriving DecidableEq

/-- Increment the count of one health verdict. -/
def StatusCounts.inc (sc : StatusCounts) : ResourceStatus → StatusCounts
  | ResourceStatus.healthy => { sc with healthy := sc.healthy + 1 }
  | ResourceStatus.warning => { sc with warning := sc.warning + 1 }
  | ResourceStatus.error => { sc with error := sc.error + 1 }
  | ResourceStatus.unknown => { sc with unknown := sc.unknown + 1 }

/-- Sum of the four per-verdict counts. -/
def StatusCounts.total (sc : StatusCounts) : Nat :=
  sc.healthy + sc.warning + sc.error + sc.unknown

/-- The summary dict produced by ClusterState.generate_summary. -/
structure Summary where
  total_resources : Nat
  total_relationships : Nat
  resource_types : List (String × Nat)
  namespaces : List (String × Nat)
  health_status : StatusCounts
  analysis_timestamp : String
deriving DecidableEq

/-- ClusterState from models.py. -/
structure ClusterState where
  resources : List KubernetesResource := []
  relationships : List ResourceRelationship := []
  analysis_timestamp : String := ""
  cluster_info : List (String × String) := []
  summary : Option Summary := none
deriving DecidableEq

/-- Increment a string-keyed counter dict (`d[k] = d.get(k, 0) + 1`),
preserving first-insertion order. -/
def bumpCount (d : List (String × Nat)) (k : String) : List (String × Nat) :=
  match d with
  | [] => [(k, 1)]
  | e :: rest => if e.1 == k then (e.1, e.2 + 1) :: rest else e :: bumpCount rest k

/-- Namespace bucket used by generate_summary:
`resource.metadata.namespace or "cluster-scoped"` (None and "" both fall
back to the literal). -/
def nsOrClusterScoped : Option String → String
  | none => "cluster-scoped"
  | some s => if s == "" then "cluster-scoped" else s

/-- Accumulator of generate_summary's per-resource loop. -/
structure SummaryAcc where
  resource_types : List (String × Nat) := []
  namespaces : List (String × Nat) := []
  health_status : StatusCounts := {}
deriving DecidableEq

/-- One iteration of generate_summary's loop over resources. -/
def summaryStep (acc : SummaryAcc) (r : KubernetesResource) : SummaryAcc :=
  { resource_types := bumpCount acc.resource_types r.kind,
    namespaces := bumpCount acc.namespaces (nsOrClusterScoped r.metadata.nspace),
    health_status := acc.health_status.inc r.health_status }

/-- The summary value ClusterState.generate_summary computes. -/
def computeSummary (cs : ClusterState) : Summary :=
  let acc := cs.resources.foldl summaryStep {}
  { total_resources := cs.resources.length,
    total_relationships := cs.relationships.length,
    resource_types := acc.resource_types,
    namespaces := acc.namespaces,
    health_status := acc.health_status,
    analysis_timestamp := cs.analysis_timestamp }

/-- ClusterState.generate_summary from models.py: stores and returns the
summary.  The embedding returns the updated state (the Python method also
returns the dict it stored in self.summary). -/
def generate_summary (cs : ClusterState) : ClusterState :=
  { cs with summary := some (computeSummary cs) }

/-- ClusterState.add_resource from models.py. -/
def ClusterState.add_resource (cs : ClusterState) (r : KubernetesResource) :
    ClusterState :=
  { cs with resources := cs.resources ++ [r] }

/-- ResourceParser.SUPPORTED_KINDS from parser.py: the allowlist of kinds. -/
def SUPPORTED_KINDS : List String :=
  ["Pod", "Service", "ConfigMap", "Node", "Namespace", "PersistentVolume",
   "PersistentVolumeClaim", "RoleBinding", "Ingress", "ServiceAccount"]

/-- The parser's running counters (parsed_count, error_count, skipped_count). -/
structure ParseStats where
  parsed_count : Nat := 0
  error_count : Nat := 0
  skipped_count : Nat := 0
deriving DecidableEq

/-- ResourceParser.get_parse_stats from parser.py. -/
def ParseStats.total (st : ParseStats) : Nat :=
  st.parsed_count + st.error_count + st.skipped_count

/-- One already-decoded document handed to `_parse_single_resource`.
`isMapping = false` models a non-dict document, on which `data.get("kind")`
raises and lands in the generic `except Exception` branch.  `kind`,
`apiVersion` model `data.get(...)` (absent or null give `none`).  The
pydantic construction of the typed resource can raise ValidationError for
structurally malformed metadata; that library-side outcome is abstracted as
the `validates` flag, while the extracted payloads (`meta`, `spec`,
`status`) carry the values used when construction succeeds. -/
structure RawDoc where
  isMapping : Bool := true
  kind : Option String := none
  apiVersion : Option String := none
  validates : Bool := true
  meta : ResourceMetadata := { name := "" }
  spec : ResourceSpec := {}
  status : Option StatusPayload := none
deriving DecidableEq

/-- The resource built by `_parse_single_resource` when parsing succeeds. -/
def RawDoc.toResource (data : RawDoc) : KubernetesResource :=
  { api_version := data.apiVersion.getD "v1", kind := data.kind.getD "",
    metadata := data.meta, spec := data.spec, status := data.status }

/-- ResourceParser._parse_single_resource from parser.py: a missing or empty
kind is skipped, an unsupported kind is skipped, a ValidationError (or any
other exception, here the non-mapping case) is counted as an error; a
successful parse increments the parsed counter.  Nothing propagates. -/
def parse_single_resource (st : ParseStats) (data : RawDoc) :
    Option KubernetesResource × ParseStats :=
  if data.isMapping then
    match data.kind with
    | none => (none, { st with skipped_count := st.skipped_count + 1 })
    | some k =>
      if k == "" then (none, { st with skipped_count := st.skipped_count + 1 })
      else if SUPPORTED_KINDS.contains k then
        if data.validates then
          (some data.toResource, { st with parsed_count := st.parsed_count + 1 })
        else (none, { st with error_count := st.error_count + 1 })
      else (none, { st with skipped_count := st.skipped_count + 1 })
  else (none, { st with error_count := st.error_count + 1 })

/-- A decoded top-level document fed to `_parse_kubectl_export`: either a
`kind: List` wrapper with an `items` array, or a single bare resource. -/
inductive ExportDoc where
  | listWrap (items : List RawDoc)
  | single (doc : RawDoc)
deriving DecidableEq

/-- One step of the item loop in `_parse_kubectl_export`: parse the item and
add it to the cluster state when a resource came back. -/
def parseItemStep (acc : ClusterState × ParseStats) (item : RawDoc) :
    ClusterState × ParseStats :=
  let (resOpt, st) := parse_single_resource acc.2 item
  match resOpt with
  | some r => (acc.1.add_resource r, st)
  | none => (acc.1, st)

/-- ResourceParser._parse_kubectl_export from parser.py: expand a List
wrapper item by item (or parse a single resource), then regenerate the
summary.  The parser's counters are threaded through. -/
def parse_kubectl_export (st : ParseStats) (data : ExportDoc) :
    ClusterState × ParseStats :=
  match data with
  | ExportDoc.listWrap items =>
    let (cs, st) := items.foldl parseItemStep ({}, st)
    (generate_summary cs, st)
  | ExportDoc.single doc =>
    let (resOpt, st) := parse_single_resource st doc
    match resOpt with
    | some r => (generate_summary (ClusterState.add_resource {} r), st)
    | none => (generate_summary {}, st)

/-- Matching of one path component against a glob pattern, the subset of
fnmatch the default patterns use: `*` matches any (possibly empty) run of
characters (so the rest of the pattern must match some suffix), `?` any
single character, anything else itself. -/
def glob_match (p : List Char) (s : List Char) : Bool :=
  match p with
  | [] => s.isEmpty
  | '*' :: ps => s.tails.any (fun t => glob_match ps t)
  | pc :: ps =>
    match s with
    | [] => false
    | c :: cs => (pc == c || pc == '?') && glob_match ps cs

/-- Last component of a relative path: the characters after the last '/'. -/
def baseName (f : String) : String :=
  String.mk ((f.toList.reverse.takeWhile (fun c => c != '/')).reverse)

/-- A directory tree, as the list of relative paths of the files under it. -/
structure Directory where
  files : List String
deriving DecidableEq

/-- Whether one file matches one pattern: `path.glob(f"**/{pattern}")`
matches the pattern against the file's base name at any depth (`**` also
matches zero directories), and the non-recursive `path.glob(pattern)` only
matches direct children. -/
def fileMatches (recursive : Bool) (pattern : String) (f : String) : Bool :=
  if recursive then glob_match pattern.toList (baseName f).toList
  else !(f.toList.contains '/') && glob_match pattern.toList f.toList

/-- Lexicographic comparison of two character lists by code point. -/
def charListLe : List Char → List Char → Bool
  | [], _ => true
  | _ :: _, [] => false
  | a :: as, b :: bs => if a == b then charListLe as bs else decide (a < b)

/-- Lexicographic string order, the order `sorted` uses on the (relative)
path strings. -/
def str_le (a b : String) : Bool :=
  charListLe a.toList b.toList

/-- The default glob patterns of find_kubernetes_files. -/
def default_patterns : List String :=
  ["*.yaml", "*.yml", "*.json", "*-export.yaml", "*-export.yml",
   "*-export.json", "kubectl-*.yaml", "kubectl-*.yml", "kubectl-*.json"]

/-- find_kubernetes_files from parser.py, for the directory case: collect
the matches of every pattern (the same file can match several patterns),
deduplicate via a set, and sort.  `patterns = []` models the absent /
falsy argument that selects the default pattern list. -/
def find_kubernetes_files (dir : Directory) (patterns : List String)
    (recursive : Bool) : List String :=
  let pats := if patterns.isEmpty then default_patterns else patterns
  let found_files :=
    pats.foldl (fun acc pattern =>
      acc ++ dir.files.filter (fun f => fileMatches recursive pattern f)) []
  found_files.dedup.insertionSort (fun a b => str_le a b = true)

/-- The file-selection prefix of discover_and_parse from parser.py: discover,
then truncate with `if max_files and len(files) > max_files:
files = files[:max_files]` (so a cap of 0 is falsy and truncates nothing).
The subsequent per-file parsing is covered by the ResourceParser
definitions above. -/
def discover_file_selection (dir : Directory) (patterns : List String)
    (recursive : Bool) (max_files : Option Nat) : List String :=
  let files := find_kubernetes_files dir patterns recursive
  match max_files with
  | none => files
  | some m => if m != 0 && files.length > m then files.take m else files

/-- ResourceAnalyzer._build_resource_index from analyzer.py: index every
resource under its full_name, and cluster-scoped resources additionally
under Kind/name.  A Python dict assignment overwrites, so lookups must
return the last binding of a key. -/
def build_resource_index (resources : List KubernetesResource) :
    List (String × KubernetesResource) :=
  resources.foldl (fun idx r =>
    let idx' := idx ++ [(r.full_name, r)]
    if strTruthy r.metadata.nspace then idx'
    else idx' ++ [(r.kind ++ "/" ++ r.metadata.name, r)]) []

/-- Dict lookup on the index: the last binding of the key wins. -/
def index_get (idx : List (String × KubernetesResource)) (key : String) :
    Option KubernetesResource :=
  idx.foldl (fun acc e => if e.1 == key then some e.2 else acc) none

/-- ResourceAnalyzer._labels_match_selector from analyzer.py: every selector
key must be present in the labels with the same value. -/
def labels_match_selector (labels selector : List (String × String)) : Bool :=
  selector.all (fun kv => dictGet labels kv.1 == some kv.2)

/-- The placeholder owner resource synthesized in
`_analyze_ownership_relationships`: `type(resource)(api_version=...,
kind=owner_kind, metadata=type(resource.metadata)(name=owner_name,
namespace=resource.metadata.namespace))`. -/
def owner_target (oref : OwnerRef) (k n : String) (child_ns : Option String) :
    KubernetesResource :=
  { api_version := oref.apiVersion.getD "v1", kind := k,
    metadata := { name := n, nspace := child_ns } }

/-- One iteration of the owner-reference loop: entries with a falsy kind or
name are skipped, every other entry adds a DEPENDS_ON edge to the
synthesized owner (which need not exist in the resource set). -/
def ownership_step (acc : KubernetesResource) (oref : OwnerRef) :
    KubernetesResource :=
  match oref.kind, oref.name with
  | some k, some n =>
    if k != "" && n != "" then
      acc.add_relationship (owner_target oref k n acc.metadata.nspace)
        RelationshipType.depends_on RelationshipDirection.outbound
        [("owner_reference", AttrVal.b true)]
    else acc
  | some _, none => acc
  | none, _ => acc

/-- ResourceAnalyzer._analyze_ownership_relationships from analyzer.py. -/
def analyze_ownership_relationships (resources : List KubernetesResource) :
    List KubernetesResource :=
  resources.map (fun resource =>
    resource.metadata.owner_references.foldl ownership_step resource)

/-- One iteration of the pod loop inside a Service's selector matching:
append a SELECTS edge to the service for every same-namespace pod whose
labels match the selector. -/
def service_pod_step (acc pod : KubernetesResource) : KubernetesResource :=
  if pod.metadata.nspace == acc.metadata.nspace &&
      labels_match_selector pod.metadata.labels acc.spec.selector then
    acc.add_relationship pod RelationshipType.selects
      RelationshipDirection.outbound [("selector", AttrVal.d acc.spec.selector)]
  else acc

/-- The mirror iteration seen from the pod: for every service with a truthy
selector that selects this pod, append the inverse EXPOSES edge. -/
def pod_service_step (acc service : KubernetesResource) : KubernetesResource :=
  if !service.spec.selector.isEmpty &&
      (acc.metadata.nspace == service.metadata.nspace &&
        labels_match_selector acc.metadata.labels service.spec.selector) then
    acc.add_relationship service RelationshipType.exposes
      RelationshipDirection.inbound []
  else acc

/-- ResourceAnalyzer._analyze_service_relationships from analyzer.py.  The
Python loop mutates service and pod objects of one shared list in place;
the functional rendering gives every resource the edges that the loop
appends to it: a service with a truthy selector gains its SELECTS edges in
pod order, a pod gains its EXPOSES edges in service order.  The
resource_index parameter is accepted and unused, as in the source. -/
def analyze_service_relationships (resources : List KubernetesResource)
    (_resource_index : List (String × KubernetesResource)) :
    List KubernetesResource :=
  let services := resources.filter (fun r => r.kind == "Service")
  let pods := resources.filter (fun r => r.kind == "Pod")
  resources.map (fun r =>
    if r.kind == "Service" then
      if r.spec.selector.isEmpty then r else pods.foldl service_pod_step r
    else if r.kind == "Pod" then services.foldl pod_service_step r
    else r)

/-- ResourceAnalyzer._add_config_relationship from analyzer.py: resolve the
name against the namespace-scoped index (note the
`Kind/namespace/name` key order) and add a USES edge when found. -/
def add_config_relationship (pod : KubernetesResource)
    (config_name : Option String) (config_kind : String)
    (resource_index : List (String × KubernetesResource)) :
    KubernetesResource :=
  match config_name with
  | none => pod
  | some n =>
    if n == "" then pod
    else
      match index_get resource_index
          (config_kind ++ "/" ++ optStr pod.metadata.nspace ++ "/" ++ n) with
      | some config_resource =>
        pod.add_relationship config_resource RelationshipType.uses
          RelationshipDirection.outbound []
      | none => pod

/-- One environment variable of one container: a truthy `configMapKeyRef`
and/or `secretKeyRef` under `valueFrom` each yield a config relationship. -/
def env_var_step (resource_index : List (String × KubernetesResource))
    (acc : KubernetesResource) (ev : EnvVar) : KubernetesResource :=
  match ev.valueFrom with
  | none => acc
  | some vf =>
    let acc' := match vf.configMapKeyRef with
      | some kr => add_config_relationship acc kr.name "ConfigMap" resource_index
      | none => acc
    match vf.secretKeyRef with
    | some kr => add_config_relationship acc' kr.name "Secret" resource_index
    | none => acc'

/-- The scan of one pod-spec volume against one volume mount name: a
matching volume contributes its configMap and/or secret reference. -/
def mount_volume_step (vn : String)
    (resource_index : List (String × KubernetesResource))
    (acc : KubernetesResource) (vol : Volume) : KubernetesResource :=
  if vol.name == some vn then
    let acc' := match vol.configMap with
      | some cm => add_config_relationship acc cm.name "ConfigMap" resource_index
      | none => acc
    match vol.secret with
    | some sec => add_config_relationship acc' sec.secretName "Secret" resource_index
    | none => acc'
  else acc

/-- One volume mount of one container: a truthy mount name triggers the scan
of the pod's volumes. -/
def volume_mount_step (resource_index : List (String × KubernetesResource))
    (acc : KubernetesResource) (vm : VolumeMount) : KubernetesResource :=
  match vm.name with
  | none => acc
  | some vn =>
    if vn == "" then acc
    else acc.spec.volumes.foldl (mount_volume_step vn resource_index) acc

/-- One container of the pod: its env list, then its volume mounts. -/
def container_config_step (resource_index : List (String × KubernetesResource))
    (acc : KubernetesResource) (cont : Container) : KubernetesResource :=
  let acc' := cont.env.foldl (env_var_step resource_index) acc
  cont.volumeMounts.foldl (volume_mount_step resource_index) acc'

/-- ResourceAnalyzer._analyze_pod_config_relationships from analyzer.py. -/
def analyze_pod_config_relationships (pod : KubernetesResource)
    (resource_index : List (String × KubernetesResource)) :
    KubernetesResource :=
  pod.spec.containers.foldl (container_config_step resource_index) pod

/-- One volume of the pod in `_analyze_pod_storage_relationships`: a truthy
persistentVolumeClaim with a truthy claimName is resolved against the
index under `PersistentVolumeClaim/namespace/claimName`. -/
def pod_storage_step (resource_index : List (String × KubernetesResource))
    (acc : KubernetesResource) (vol : Volume) : KubernetesResource :=
  match vol.persistentVolumeClaim with
  | none => acc
  | some pvc_claim =>
    match pvc_claim.claimName with
    | none => acc
    | some claim_name =>
      if claim_name == "" then acc
      else
        match index_get resource_index
            ("PersistentVolumeClaim/" ++ optStr acc.metadata.nspace ++ "/"
              ++ claim_name) with
        | some pvc =>
          acc.add_relationship pvc RelationshipType.uses
            RelationshipDirection.outbound [("volume_name", attrOfOpt vol.name)]
        | none => acc

/-- ResourceAnalyzer._analyze_pod_storage_relationships from analyzer.py. -/
def analyze_pod_storage_relationships (pod : KubernetesResource)
    (resource_index : List (String × KubernetesResource)) :
    KubernetesResource :=
  pod.spec.volumes.foldl (pod_storage_step resource_index) pod

/-- ResourceAnalyzer._analyze_pod_serviceaccount_relationships from
analyzer.py: a truthy, non-"default" service account is resolved under
`ServiceAccount/namespace/name`. -/
def analyze_pod_serviceaccount_relationships (pod : KubernetesResource)
    (resource_index : List (String × KubernetesResource)) :
    KubernetesResource :=
  let service_account := pod.service_account
  if service_account != "" && service_account != "default" then
    match index_get resource_index
        ("ServiceAccount/" ++ optStr pod.metadata.nspace ++ "/"
          ++ service_account) with
    | some sa =>
      pod.add_relationship sa RelationshipType.uses
        RelationshipDirection.outbound []
    | none => pod
  else pod

/-- ResourceAnalyzer._analyze_pod_node_relationships from analyzer.py: a
truthy nodeName is resolved under the cluster-scoped key `Node/name`. -/
def analyze_pod_node_relationships (pod : KubernetesResource)
    (resource_index : List (String × KubernetesResource)) :
    KubernetesResource :=
  match pod.spec.nodeName with
  | none => pod
  | some node_name =>
    if node_name == "" then pod
    else
      match index_get resource_index ("Node/" ++ node_name) with
      | some node =>
        pod.add_relationship node RelationshipType.depends_on
          RelationshipDirection.outbound [("scheduled", AttrVal.b true)]
      | none => pod

/-- ResourceAnalyzer._analyze_pod_relationships from analyzer.py: the four
pod sub-passes run in sequence on every Pod. -/
def analyze_pod_relationships (resources : List KubernetesResource)
    (resource_index : List (String × KubernetesResource)) :
    List KubernetesResource :=
  resources.map (fun r =>
    if r.kind == "Pod" then
      analyze_pod_node_relationships
        (analyze_pod_serviceaccount_relationships
          (analyze_pod_storage_relationships
            (analyze_pod_config_relationships r resource_index)
            resource_index)
          resource_index)
        resource_index
    else r)

/-- ResourceAnalyzer._analyze_storage_relationships from analyzer.py: a PVC
whose status carries a volumeName is bound to the matching cluster-scoped
PersistentVolume. -/
def analyze_storage_relationships (resources : List KubernetesResource)
    (resource_index : List (String × KubernetesResource)) :
    List KubernetesResource :=
  resources.map (fun r =>
    if r.kind == "PersistentVolumeClaim" then
      match r.status with
      | none => r
      | some st =>
        match st.volumeName with
        | none => r
        | some volume_name =>
          match index_get resource_index ("PersistentVolume/" ++ volume_name) with
          | some pv =>
            r.add_relationship pv RelationshipType.binds
              RelationshipDirection.outbound []
          | none => r
    else r)

/-- One subject of a RoleBinding: a ServiceAccount subject, resolved under
`ServiceAccount/namespace/name` (the namespace defaulting to the
RoleBinding's own), yields a REFERENCES edge. -/
def rbac_subject_step (resource_index : List (String × KubernetesResource))
    (acc : KubernetesResource) (subject : Subject) : KubernetesResource :=
  if subject.kind == some "ServiceAccount" then
    let sa_namespace := match subject.nspace with
      | some v => some v
      | none => acc.metadata.nspace
    match index_get resource_index
        ("ServiceAccount/" ++ optStr sa_namespace ++ "/"
          ++ optStr subject.name) with
    | some sa =>
      acc.add_relationship sa RelationshipType.references
        RelationshipDirection.outbound [("subject", AttrVal.b true)]
    | none => acc
  else acc

/-- ResourceAnalyzer._analyze_rbac_relationships from analyzer.py. -/
def analyze_rbac_relationships (resources : List KubernetesResource)
    (resource_index : List (String × KubernetesResource)) :
    List KubernetesResource :=
  resources.map (fun r =>
    if r.kind == "RoleBinding" then r.spec.subjects.foldl (rbac_subject_step resource_index) r
    else r)

/-- The container-status scan of `_assess_pod_health` for a Running pod:
the first container that is not ready, or whose restart count exceeds 5,
sets a WARNING with its issue. -/
def scan_container_statuses (issues : List String) :
    List ContainerStatus → ResourceStatus × List String
  | [] => (ResourceStatus.healthy, issues)
  | cs :: rest =>
    if !cs.ready then
      (ResourceStatus.warning,
        issues ++ ["Container " ++ optStr cs.name ++ " is not ready"])
    else if cs.restartCount > 5 then
      (ResourceStatus.warning,
        issues ++ ["Container " ++ optStr cs.name ++ " has high restart count"])
    else scan_container_statuses issues rest

/-- ResourceAnalyzer._assess_pod_health from analyzer.py.  The returned list
is the pod's issue list after the method's appends. -/
def assess_pod_health (pod : KubernetesResource) : ResourceStatus × List String :=
  match pod.status with
  | none => (ResourceStatus.unknown, pod.issues)
  | some st =>
    if st.phase == some "Failed" then
      (ResourceStatus.error, pod.issues ++ ["Pod is in Failed phase"])
    else if st.phase == some "Pending" then
      (ResourceStatus.warning, pod.issues ++ ["Pod is in Pending phase"])
    else if st.phase == some "Running" then
      scan_container_statuses pod.issues st.containerStatuses
    else (ResourceStatus.healthy, pod.issues)

/-- ResourceAnalyzer._assess_service_health from analyzer.py. -/
def assess_service_health (service : KubernetesResource) :
    ResourceStatus × List String :=
  let selector_check :=
    if service.spec.selector.isEmpty then
      (ResourceStatus.warning, service.issues ++ ["Service has no selector"])
    else (ResourceStatus.healthy, service.issues)
  match service.status with
  | none => selector_check
  | some st =>
    match st.loadBalancer with
    | none => selector_check
    | some lb =>
      if lb.ingress.isEmpty then
        (ResourceStatus.warning,
          service.issues ++ ["LoadBalancer service has no ingress"])
      else selector_check

/-- The generic conditions scan of `_assess_resource_health`: the first
condition of type Ready/Available/Progressing with status "False" is an
ERROR. -/
def scan_conditions (issues : List String) :
    List Condition → ResourceStatus × List String
  | [] => (ResourceStatus.healthy, issues)
  | c :: rest =>
    if c.status == some "False" &&
        (c.type == some "Ready" || c.type == some "Available" ||
          c.type == some "Progressing") then
      (ResourceStatus.error,
        issues ++ ["Condition " ++ optStr c.type ++ " is False"])
    else scan_conditions issues rest

/-- ResourceAnalyzer._assess_resource_health from analyzer.py: a deletion
timestamp short-circuits everything with a WARNING, then Pod and Service
get their specialized checks, and every other resource the generic
condition scan. -/
def assess_resource_health (resource : KubernetesResource) :
    ResourceStatus × List String :=
  if resource.metadata.deletion_timestamp.isSome then
    (ResourceStatus.warning, resource.issues ++ ["Resource is being deleted"])
  else if resource.kind == "Pod" then assess_pod_health resource
  else if resource.kind == "Service" then assess_service_health resource
  else
    match resource.status with
    | none => (ResourceStatus.healthy, resource.issues)
    | some st => scan_conditions resource.issues st.conditions

/-- ResourceAnalyzer._analyze_resource_health from analyzer.py: store each
resource's verdict (and the issues the assessment appended). -/
def analyze_resource_health (resources : List KubernetesResource) :
    List KubernetesResource :=
  resources.map (fun r =>
    { r with health_status := (assess_resource_health r).1,
             issues := (assess_resource_health r).2 })

/-- ResourceAnalyzer._collect_cluster_relationships from analyzer.py: the
top-level list is reassigned to the concatenation of every resource's own
relationship list. -/
def collect_cluster_relationships (cs : ClusterState) : ClusterState :=
  { cs with relationships :=
      cs.resources.foldl (fun acc r => acc ++ r.relationships) [] }

/-- ResourceAnalyzer.analyze_cluster from analyzer.py: build the index once,
run the five relationship passes, flatten the relationships, assess
health, regenerate the summary. -/
def analyze_cluster (cluster_state : ClusterState) : ClusterState :=
  let resource_index := build_resource_index cluster_state.resources
  let rs1 := analyze_ownership_relationships cluster_state.resources
  let rs2 := analyze_service_relationships rs1 resource_index
  let rs3 := analyze_pod_relationships rs2 resource_index
  let rs4 := analyze_storage_relationships rs3 resource_index
  let rs5 := analyze_rbac_relationships rs4 resource_index
  let cs1 := collect_cluster_relationships { cluster_state with resources := rs5 }
  let cs2 := { cs1 with resources := analyze_resource_health cs1.resources }
  generate_summary cs2

/-!
Delta functions: for every pass, the list of edges the pass appends to one
resource, expressed over `ResourceCore` (the fields the passes read) and a
core-level image of the resource index.  The theorems below prove that each
pass equals "append the delta", which is what the idempotence, ownership
and service-selection claims are settled with.
-/

/-- Core-level index built the same way as `_build_resource_index`. -/
def build_core_index (cores : List ResourceCore) :
    List (String × ResourceCore) :=
  cores.foldl (fun idx c =>
    let idx' := idx ++ [(c.full_name, c)]
    if strTruthy c.metadata.nspace then idx'
    else idx' ++ [(c.kind ++ "/" ++ c.metadata.name, c)]) []

/-- Core-level dict lookup: the last binding of the key wins. -/
def core_index_get (idx : List (String × ResourceCore)) (key : String) :
    Option ResourceCore :=
  idx.foldl (fun acc e => if e.1 == key then some e.2 else acc) none

/-- Core-level image of an index entry. -/
def coreEntry (e : String × KubernetesResource) : String × ResourceCore :=
  (e.1, e.2.core)

/-- The edge one owner-reference entry contributes (none when kind or name
is falsy). -/
def owner_reference_edge (c : ResourceCore) (oref : OwnerRef) :
    Option ResourceRelationship :=
  match oref.kind, oref.name with
  | some k, some n =>
    if k != "" && n != "" then
      some { source := c.ref,
             target := (owner_target oref k n c.metadata.nspace).ref,
             relationship_type := RelationshipType.depends_on,
             direction := RelationshipDirection.outbound,
             metadata := [("owner_reference", AttrVal.b true)] }
    else none
  | some _, none => none
  | none, _ => none

/-- All edges the ownership pass appends to one resource. -/
def ownership_delta (c : ResourceCore) : List ResourceRelationship :=
  c.metadata.owner_references.foldl
    (fun acc oref => acc ++ (owner_reference_edge c oref).toList) []

/-- The SELECTS edge of a service towards a pod. -/
def selects_edge (c pc : ResourceCore) : ResourceRelationship :=
  { source := c.ref, target := pc.ref,
    relationship_type := RelationshipType.selects,
    direction := RelationshipDirection.outbound,
    metadata := [("selector", AttrVal.d c.spec.selector)] }

/-- The EXPOSES edge of a pod towards a service. -/
def exposes_edge (c sc : ResourceCore) : ResourceRelationship :=
  { source := c.ref, target := sc.ref,
    relationship_type := RelationshipType.exposes,
    direction := RelationshipDirection.inbound,
    metadata := [] }

/-- Whether a service's selector matches a pod (same namespace and every
selector key present in the pod's labels with the same value). -/
def pod_matches_service (svc pod : ResourceCore) : Bool :=
  pod.metadata.nspace == svc.metadata.nspace &&
    labels_match_selector pod.metadata.labels svc.spec.selector

/-- All edges the service-selection pass appends to one resource: SELECTS
edges for a service with a truthy selector, EXPOSES edges for a pod. -/
def service_delta (c : ResourceCore) (cores : List ResourceCore) :
    List ResourceRelationship :=
  if c.kind == "Service" then
    if c.spec.selector.isEmpty then []
    else
      (cores.filter (fun pc => pc.kind == "Pod")).foldl
        (fun acc pc =>
          acc ++ (if pod_matches_service c pc then [selects_edge c pc] else [])) []
  else if c.kind == "Pod" then
    (cores.filter (fun sc => sc.kind == "Service")).foldl
      (fun acc sc =>
        acc ++ (if !sc.spec.selector.isEmpty && pod_matches_service sc c then
          [exposes_edge c sc] else [])) []
  else []

/-- The edges one resolved ConfigMap/Secret name contributes. -/
def config_edge (c : ResourceCore) (config_name : Option String)
    (config_kind : String) (cidx : List (String × ResourceCore)) :
    List ResourceRelationship :=
  match config_name with
  | none => []
  | some n =>
    if n == "" then []
    else
      match core_index_get cidx
          (config_kind ++ "/" ++ optStr c.metadata.nspace ++ "/" ++ n) with
      | some cfg =>
        [{ source := c.ref, target := cfg.ref,
           relationship_type := RelationshipType.uses,
           direction := RelationshipDirection.outbound, metadata := [] }]
      | none => []

/-- The edges one environment variable contributes. -/
def env_var_delta (c : ResourceCore) (cidx : List (String × ResourceCore))
    (ev : EnvVar) : List ResourceRelationship :=
  match ev.valueFrom with
  | none => []
  | some vf =>
    (match vf.configMapKeyRef with
     | some kr => config_edge c kr.name "ConfigMap" cidx
     | none => []) ++
    (match vf.secretKeyRef with
     | some kr => config_edge c kr.name "Secret" cidx
     | none => [])

/-- The edges one pod-spec volume contributes against one mount name. -/
def volume_config_delta (c : ResourceCore) (cidx : List (String × ResourceCore))
    (vn : String) (vol : Volume) : List ResourceRelationship :=
  if vol.name == some vn then
    (match vol.configMap with
     | some cm => config_edge c cm.name "ConfigMap" cidx
     | none => []) ++
    (match vol.secret with
     | some sec => config_edge c sec.secretName "Secret" cidx
     | none => [])
  else []

/-- The edges one volume mount contributes. -/
def volume_mount_delta (c : ResourceCore) (cidx : List (String × ResourceCore))
    (vm : VolumeMount) : List ResourceRelationship :=
  match vm.name with
  | none => []
  | some vn =>
    if vn == "" then []
    else c.spec.volumes.foldl
      (fun acc vol => acc ++ volume_config_delta c cidx vn vol) []

/-- The edges one container contributes (env first, then mounts). -/
def container_config_delta (c : ResourceCore)
    (cidx : List (String × ResourceCore)) (cont : Container) :
    List ResourceRelationship :=
  cont.env.foldl (fun acc ev => acc ++ env_var_delta c cidx ev) [] ++
    cont.volumeMounts.foldl (fun acc vm => acc ++ volume_mount_delta c cidx vm) []

/-- All edges the config sub-pass appends to one pod. -/
def pod_config_delta (c : ResourceCore) (cidx : List (String × ResourceCore)) :
    List ResourceRelationship :=
  c.spec.containers.foldl
    (fun acc cont => acc ++ container_config_delta c cidx cont) []

/-- The edges one pod-spec volume contributes in the storage sub-pass. -/
def storage_volume_delta (c : ResourceCore)
    (cidx : List (String × ResourceCore)) (vol : Volume) :
    List ResourceRelationship :=
  match vol.persistentVolumeClaim with
  | none => []
  | some pvc_claim =>
    match pvc_claim.claimName with
    | none => []
    | some claim_name =>
      if claim_name == "" then []
      else
        match core_index_get cidx
            ("PersistentVolumeClaim/" ++ optStr c.metadata.nspace ++ "/"
              ++ claim_name) with
        | some pvc =>
          [{ source := c.ref, target := pvc.ref,
             relationship_type := RelationshipType.uses,
             direction := RelationshipDirection.outbound,
             metadata := [("volume_name", attrOfOpt vol.name)] }]
        | none => []

/-- All edges the storage sub-pass appends to one pod. -/
def pod_storage_delta (c : ResourceCore) (cidx : List (String × ResourceCore)) :
    List ResourceRelationship :=
  c.spec.volumes.foldl (fun acc vol => acc ++ storage_volume_delta c cidx vol) []

/-- The edges the service-account sub-pass appends to one pod. -/
def pod_sa_delta (c : ResourceCore) (cidx : List (String × ResourceCore)) :
    List ResourceRelationship :=
  if c.spec.serviceAccountName.getD "default" != "" &&
      c.spec.serviceAccountName.getD "default" != "default" then
    match core_index_get cidx
        ("ServiceAccount/" ++ optStr c.metadata.nspace ++ "/"
          ++ c.spec.serviceAccountName.getD "default") with
    | some sa =>
      [{ source := c.ref, target := sa.ref,
         relationship_type := RelationshipType.uses,
         direction := RelationshipDirection.outbound, metadata := [] }]
    | none => []
  else []

/-- The edges the node sub-pass appends to one pod. -/
def pod_node_delta (c : ResourceCore) (cidx : List (String × ResourceCore)) :
    List ResourceRelationship :=
  match c.spec.nodeName with
  | none => []
  | some node_name =>
    if node_name == "" then []
    else
      match core_index_get cidx ("Node/" ++ node_name) with
      | some node =>
        [{ source := c.ref, target := node.ref,
           relationship_type := RelationshipType.depends_on,
           direction := RelationshipDirection.outbound,
           metadata := [("scheduled", AttrVal.b true)] }]
      | none => []

/-- All edges the PVC-to-PV binding pass appends to one PVC. -/
def pvc_binds_delta (c : ResourceCore) (cidx : List (String × ResourceCore)) :
    List ResourceRelationship :=
  match c.status with
  | none => []
  | some st =>
    match st.volumeName with
    | none => []
    | some volume_name =>
      match core_index_get cidx ("PersistentVolume/" ++ volume_name) with
      | some pv =>
        [{ source := c.ref, target := pv.ref,
           relationship_type := RelationshipType.binds,
           direction := RelationshipDirection.outbound, metadata := [] }]
      | none => []

/-- The edges one RoleBinding subject contributes. -/
def rbac_subject_delta (c : ResourceCore)
    (cidx : List (String × ResourceCore)) (subject : Subject) :
    List ResourceRelationship :=
  if subject.kind == some "ServiceAccount" then
    match core_index_get cidx
        ("ServiceAccount/" ++
          optStr (match subject.nspace with
            | some v => some v
            | none => c.metadata.nspace) ++ "/"
          ++ optStr subject.name) with
    | some sa =>
      [{ source := c.ref, target := sa.ref,
         relationship_type := RelationshipType.references,
         direction := RelationshipDirection.outbound,
         metadata := [("subject", AttrVal.b true)] }]
    | none => []
  else []

/-- All edges the RBAC pass appends to one RoleBinding. -/
def rbac_delta (c : ResourceCore) (cidx : List (String × ResourceCore)) :
    List ResourceRelationship :=
  c.spec.subjects.foldl (fun acc s => acc ++ rbac_subject_delta c cidx s) []

/-- All edges one full analyzer run appends to one resource, in pass order. -/
def total_delta (c : ResourceCore) (cores : List ResourceCore)
    (cidx : List (String × ResourceCore)) : List ResourceRelationship :=
  ownership_delta c ++
    service_delta c cores ++
    (if c.kind == "Pod" then
      pod_config_delta c cidx ++ pod_storage_delta c cidx ++
        pod_sa_delta c cidx ++ pod_node_delta c cidx
    else []) ++
    (if c.kind == "PersistentVolumeClaim" then pvc_binds_delta c cidx else []) ++
    (if c.kind == "RoleBinding" then rbac_delta c cidx else [])

/-!
Concrete fixtures used by the per-claim counterexamples and witnesses.
-/

/-- Fixture: a pod whose only volume claims the PVC "data-pvc". -/
def c1_pod : KubernetesResource :=
  { api_version := "v1", kind := "Pod",
    metadata := { name := "web", nspace := some "default" },
    spec :=
      { volumes :=
          [{ name := some "data",
             persistentVolumeClaim := some { claimName := some "data-pvc" } }] } }

/-- Fixture: the PVC "data-pvc" in the pod's namespace "default". -/
def c1_pvc : KubernetesResource :=
  { api_version := "v1", kind := "PersistentVolumeClaim",
    metadata := { name := "data-pvc", nspace := some "default" } }

/-- Fixture: the parsed state holding the pod and its PVC. -/
def c1_state : ClusterState := { resources := [c1_pod, c1_pvc] }

/-- Fixture: a pod carrying one well-formed owner reference. -/
def c2_pod : KubernetesResource :=
  { api_version := "v1", kind := "Pod",
    metadata :=
      { name := "web-abc12", nspace := some "default",
        owner_references :=
          [{ apiVersion := some "apps/v1", kind := some "ReplicaSet",
             name := some "web" }] } }

/-- Fixture: a freshly parsed single-pod state. -/
def c2_state : ClusterState := { resources := [c2_pod] }

/-- Fixture: a resource reference with uid "uid-1". -/
def c3_ref1 : ResourceReference :=
  { api_version := "v1", kind := "Pod", name := "web", nspace := some "default",
    uid := some "uid-1" }

/-- Fixture: the same identity tuple with uid "uid-2". -/
def c3_ref2 : ResourceReference :=
  { api_version := "v1", kind := "Pod", name := "web", nspace := some "default",
    uid := some "uid-2" }

/-- Fixture: a resource being deleted, carrying status data that the other
health rules would flag, to show the deletion check short-circuits them. -/
def c4_resource : KubernetesResource :=
  { api_version := "v1", kind := "ConfigMap",
    metadata :=
      { name := "cfg", nspace := some "default",
        deletion_timestamp := some "2024-01-01T00:00:00Z" },
    status :=
      some { conditions :=
               [{ type := some "Ready", status := some "False" }] } }

/-- Fixture: a service with an empty selector. -/
def c5_service : KubernetesResource :=
  { api_version := "v1", kind := "Service",
    metadata := { name := "svc", nspace := some "apps" } }

/-- Fixture: a pod in the same namespace as the empty-selector service. -/
def c5_pod : KubernetesResource :=
  { api_version := "v1", kind := "Pod",
    metadata :=
      { name := "p1", nspace := some "apps", labels := [("app", "x")] } }

/-- Fixture: the state with the empty-selector service and the pod. -/
def c5_state : ClusterState := { resources := [c5_service, c5_pod] }

/-- Fixture: a service whose selector matches the witness pod. -/
def c5w_service : KubernetesResource :=
  { api_version := "v1", kind := "Service",
    metadata := { name := "front", nspace := some "apps" },
    spec := { selector := [("app", "web")] } }

/-- Fixture: a pod matching the witness service's selector. -/
def c5w_pod : KubernetesResource :=
  { api_version := "v1", kind := "Pod",
    metadata :=
      { name := "web-1", nspace := some "apps",
        labels := [("app", "web"), ("tier", "front")] } }

/-- Fixture: the state with the matching service and pod. -/
def c5w_state : ClusterState := { resources := [c5w_service, c5w_pod] }

/-- Fixture: a kubectl List export with two supported items around one
unsupported item. -/
def c6_items : List RawDoc :=
  [{ kind := some "Pod", meta := { name := "p1", nspace := some "ns" } },
   { kind := some "Deployment", meta := { name := "d1", nspace := some "ns" } },
   { kind := some "Service", meta := { name := "s1", nspace := some "ns" } }]

/-- Fixture: a document with no kind field. -/
def c7_doc_missing_kind : RawDoc := { kind := none }

/-- Fixture: a document of an unsupported kind. -/
def c7_doc_unsupported : RawDoc := { kind := some "CronJob" }

/-- Fixture: a supported-kind document failing structural validation. -/
def c7_doc_invalid : RawDoc := { kind := some "Pod", validates := false }

/-- Fixture: a ConfigMap owned by a Deployment that is absent from the
resource set. -/
def c8_cm : KubernetesResource :=
  { api_version := "v1", kind := "ConfigMap",
    metadata :=
      { name := "cm1", nspace := some "prod",
        owner_references :=
          [{ apiVersion := some "apps/v1", kind := some "Deployment",
             name := some "dep1", uid := some "u-1" }] } }

/-- Fixture: the single-ConfigMap state for the ownership witness. -/
def c8_state : ClusterState := { resources := [c8_cm] }

/-- Fixture: a directory with five files matching the default patterns and
one that matches none. -/
def c9_dir : Directory :=
  { files := ["b.yaml", "a.yaml", "e.json", "c.yml", "d.yaml", "notes.txt"] }

/-- A document that `_parse_single_resource` parses successfully: a mapping
with a truthy kind from the supported allowlist whose typed construction
validates. -/
def wellFormedSupported (d : RawDoc) : Bool :=
  d.isMapping &&
    (match d.kind with
     | some k => k != "" && SUPPORTED_KINDS.contains k
     | none => false) &&
    d.validates

/-- A mapping document carrying a kind outside the supported allowlist. -/
def unsupportedKind (d : RawDoc) : Bool :=
  d.isMapping &&
    (match d.kind with
     | some k => !SUPPORTED_KINDS.contains k
     | none => false)

/-!
Helper lemmas about append-accumulating folds, and the characterization of
every analyzer pass as "append this resource's delta".
-/

theorem foldl_append_init {α β : Type} (f : β → List α) (xs : List β)
    (init : List α) :
    xs.foldl (fun acc b => acc ++ f b) init =
      init ++ xs.foldl (fun acc b => acc ++ f b) [] := by
  induction xs generalizing init with
  | nil => simp
  | cons x xs ih =>
    rw [List.foldl_cons, List.foldl_cons, ih (init ++ f x), ih ([] ++ f x)]
    simp

theorem foldl_append_eq_flatten {α β : Type} (f : β → List α) (xs : List β) :
    xs.foldl (fun acc b => acc ++ f b) [] = (xs.map f).flatten := by
  induction xs with
  | nil => rfl
  | cons x xs ih =>
    rw [List.foldl_cons, foldl_append_init, ih]
    simp

theorem mem_foldl_append {α β : Type} (f : β → List α) (xs : List β) (a : α) :
    a ∈ xs.foldl (fun acc b => acc ++ f b) [] ↔ ∃ b ∈ xs, a ∈ f b := by
  rw [foldl_append_eq_flatten]
  simp

theorem core_update_relationships (r : KubernetesResource)
    (L : List ResourceRelationship) :
    ({ r with relationships := L } : KubernetesResource).core = r.core := rfl

theorem foldl_relationship_step {α : Type}
    (step : KubernetesResource → α → KubernetesResource)
    (g : ResourceCore → α → List ResourceRelationship)
    (hstep : ∀ r a, step r a =
      { r with relationships := r.relationships ++ g r.core a })
    (xs : List α) (r : KubernetesResource) :
    xs.foldl step r =
      { r with relationships :=
          r.relationships ++ xs.foldl (fun acc a => acc ++ g r.core a) [] } := by
  induction xs generalizing r with
  | nil => simp
  | cons x xs ih =>
    rw [List.foldl_cons, hstep, ih, List.foldl_cons]
    simp only [core_update_relationships, List.nil_append]
    rw [foldl_append_init (fun b => g r.core b) xs (g r.core x)]
    simp

theorem core_kind (r : KubernetesResource) : r.core.kind = r.kind := rfl

theorem core_metadata (r : KubernetesResource) : r.core.metadata = r.metadata := rfl

theorem core_spec (r : KubernetesResource) : r.core.spec = r.spec := rfl

theorem core_status (r : KubernetesResource) : r.core.status = r.status := rfl

theorem ref_core (r : KubernetesResource) : r.core.ref = r.ref := rfl

theorem index_get_fold_map (idx : List (String × KubernetesResource))
    (key : String) (acc : Option KubernetesResource) :
    (idx.foldl (fun acc e => if e.1 == key then some e.2 else acc) acc).map
        KubernetesResource.core =
      (idx.map coreEntry).foldl (fun acc e => if e.1 == key then some e.2 else acc)
        (acc.map KubernetesResource.core) := by
  induction idx generalizing acc with
  | nil => rfl
  | cons x xs ih =>
    rw [List.foldl_cons, List.map_cons, List.foldl_cons, ih]
    congr 1
    by_cases h : x.1 == key
    · simp [coreEntry, h]
    · simp [coreEntry, h]

theorem index_get_core (idx : List (String × KubernetesResource)) (key : String) :
    (index_get idx key).map KubernetesResource.core =
      core_index_get (idx.map coreEntry) key := by
  unfold index_get core_index_get
  exact index_get_fold_map idx key none

theorem build_index_fold_map (rs : List KubernetesResource)
    (acc : List (String × KubernetesResource)) :
    (rs.foldl (fun idx r =>
      let idx' := idx ++ [(r.full_name, r)]
      if strTruthy r.metadata.nspace then idx'
      else idx' ++ [(r.kind ++ "/" ++ r.metadata.name, r)]) acc).map coreEntry =
      (rs.map KubernetesResource.core).foldl (fun idx c =>
        let idx' := idx ++ [(c.full_name, c)]
        if strTruthy c.metadata.nspace then idx'
        else idx' ++ [(c.kind ++ "/" ++ c.metadata.name, c)]) (acc.map coreEntry) := by
  induction rs generalizing acc with
  | nil => rfl
  | cons r rs ih =>
    rw [List.foldl_cons, List.map_cons, List.foldl_cons, ih]
    congr 1
    by_cases h : strTruthy r.metadata.nspace
    · simp [KubernetesResource.full_name, core_metadata, h, coreEntry]
    · simp [KubernetesResource.full_name, core_metadata, core_kind, h, coreEntry]

theorem build_index_map_core (rs : List KubernetesResource) :
    (build_resource_index rs).map coreEntry =
      build_core_index (rs.map KubernetesResource.core) := by
  unfold build_resource_index build_core_index
  exact build_index_fold_map rs []

theorem map_core_filter_kind (rs : List KubernetesResource) (k : String) :
    (rs.filter (fun r => r.kind == k)).map KubernetesResource.core =
      (rs.map KubernetesResource.core).filter (fun c => c.kind == k) := by
  induction rs with
  | nil => rfl
  | cons r rs ih =>
    by_cases h : r.kind == k
    · simp [List.filter_cons, core_kind, h, ih]
    · simp [List.filter_cons, core_kind, h, ih]

theorem ownership_step_eq (r : KubernetesResource) (oref : OwnerRef) :
    ownership_step r oref =
      { r with relationships :=
          r.relationships ++ (owner_reference_edge r.core oref).toList } := by
  unfold ownership_step owner_reference_edge
  cases hk : oref.kind with
  | none => simp
  | some k =>
    cases hn : oref.name with
    | none => simp
    | some n =>
      by_cases h : (k != "" && n != "") = true
      · simp [h, KubernetesResource.add_relationship, ref_core, core_metadata]
      · simp [h]

theorem service_pod_step_eq (acc pod : KubernetesResource) :
    service_pod_step acc pod =
      { acc with relationships := acc.relationships ++
          (if pod_matches_service acc.core pod.core then
            [selects_edge acc.core pod.core] else []) } := by
  unfold service_pod_step pod_matches_service selects_edge
  by_cases h : (pod.metadata.nspace == acc.metadata.nspace &&
      labels_match_selector pod.metadata.labels acc.spec.selector) = true
  · simp [core_metadata, core_spec, h, KubernetesResource.add_relationship,
      ref_core]
  · simp [core_metadata, core_spec, h]

theorem pod_service_step_eq (acc service : KubernetesResource) :
    pod_service_step acc service =
      { acc with relationships := acc.relationships ++
          (if !service.spec.selector.isEmpty &&
              pod_matches_service service.core acc.core then
            [exposes_edge acc.core service.core] else []) } := by
  unfold pod_service_step pod_matches_service exposes_edge
  by_cases h : (!service.spec.selector.isEmpty &&
      (acc.metadata.nspace == service.metadata.nspace &&
        labels_match_selector acc.metadata.labels service.spec.selector)) = true
  · simp [core_metadata, core_spec, h, KubernetesResource.add_relationship,
      ref_core]
  · simp [core_metadata, core_spec, h]

theorem analyze_ownership_relationships_eq (rs : List KubernetesResource) :
    analyze_ownership_relationships rs =
      rs.map (fun r =>
        { r with relationships := r.relationships ++ ownership_delta r.core }) := by
  unfold analyze_ownership_relationships ownership_delta
  refine List.map_congr_left (fun r _ => ?_)
  rw [foldl_relationship_step ownership_step
    (fun c oref => (owner_reference_edge c oref).toList) ownership_step_eq
    r.metadata.owner_references r]
  simp [core_metadata]

theorem analyze_service_relationships_eq (rs : List KubernetesResource)
    (idx : List (String × KubernetesResource)) :
    analyze_service_relationships rs idx =
      rs.map (fun r =>
        { r with relationships := r.relationships ++
            service_delta r.core (rs.map KubernetesResource.core) }) := by
  unfold analyze_service_relationships service_delta
  refine List.map_congr_left (fun r _ => ?_)
  by_cases hs : r.kind == "Service"
  · simp only [hs, ite_true, core_kind]
    by_cases hsel : r.spec.selector.isEmpty
    · simp [hsel, core_spec]
    · simp only [hsel, core_spec, ite_false, Bool.false_eq_true]
      rw [foldl_relationship_step service_pod_step
        (fun c pod => if pod_matches_service c pod.core then
          [selects_edge c pod.core] else []) service_pod_step_eq
        (rs.filter (fun x => x.kind == "Pod")) r]
      rw [← map_core_filter_kind]
      rw [List.foldl_map (KubernetesResource.core)
        (fun acc pc => acc ++ (if pod_matches_service r.core pc then
          [selects_edge r.core pc] else []))
        (rs.filter (fun x => x.kind == "Pod")) []]
  · by_cases hp : r.kind == "Pod"
    · simp only [hs, hp, ite_true, ite_false, core_kind, Bool.false_eq_true]
      rw [foldl_relationship_step pod_service_step
        (fun c svc => if !svc.spec.selector.isEmpty &&
            pod_matches_service svc.core c then
          [exposes_edge c svc.core] else []) ?hstep
        (rs.filter (fun x => x.kind == "Service")) r]
      case hstep => exact fun r' a => pod_service_step_eq r' a
      rw [← map_core_filter_kind]
      rw [List.foldl_map (KubernetesResource.core)
        (fun acc sc => acc ++ (if !sc.spec.selector.isEmpty &&
            pod_matches_service sc r.core then
          [exposes_edge r.core sc] else []))
        (rs.filter (fun x => x.kind == "Service")) []]
      simp only [core_spec]
    · simp [hs, hp, core_kind]

theorem add_config_relationship_eq (pod : KubernetesResource)
    (config_name : Option String) (config_kind : String)
    (idx : List (String × KubernetesResource)) :
    add_config_relationship pod config_name config_kind idx =
      { pod with relationships := pod.relationships ++
          config_edge pod.core config_name config_kind (idx.map coreEntry) } := by
  unfold add_config_relationship config_edge
  cases config_name with
  | none => simp
  | some n =>
    by_cases hn : (n == "") = true
    · simp [hn]
    · simp only [hn, Bool.false_eq_true, ite_false, core_metadata]
      have h2 := (index_get_core idx
        (config_kind ++ "/" ++ optStr pod.metadata.nspace ++ "/" ++ n)).symm
      cases hg : index_get idx
          (config_kind ++ "/" ++ optStr pod.metadata.nspace ++ "/" ++ n) with
      | none =>
        rw [hg] at h2
        simp at h2
        rw [h2]
        simp
      | some cfg =>
        rw [hg] at h2
        simp at h2
        rw [h2]
        simp [KubernetesResource.add_relationship, ref_core]

theorem env_var_step_eq (idx : List (String × KubernetesResource))
    (r : KubernetesResource) (ev : EnvVar) :
    env_var_step idx r ev =
      { r with relationships := r.relationships ++
          env_var_delta r.core (idx.map coreEntry) ev } := by
  unfold env_var_step env_var_delta
  obtain ⟨vfOpt⟩ := ev
  cases vfOpt with
  | none => simp
  | some vf =>
    obtain ⟨cmRef, secRef⟩ := vf
    cases cmRef with
    | none =>
      cases secRef with
      | none => simp
      | some kr => simp [add_config_relationship_eq]
    | some kr =>
      cases secRef with
      | none => simp [add_config_relationship_eq]
      | some kr2 =>
        simp [add_config_relationship_eq, core_update_relationships]

theorem mount_volume_step_eq (vn : String)
    (idx : List (String × KubernetesResource))
    (r : KubernetesResource) (vol : Volume) :
    mount_volume_step vn idx r vol =
      { r with relationships := r.relationships ++
          volume_config_delta r.core (idx.map coreEntry) vn vol } := by
  unfold mount_volume_step volume_config_delta
  by_cases h : (vol.name == some vn) = true
  · simp only [h, ite_true]
    cases hcm : vol.configMap with
    | none =>
      cases hsec : vol.secret with
      | none => simp
      | some sec => simp [add_config_relationship_eq]
    | some cm =>
      cases hsec : vol.secret with
      | none => simp [add_config_relationship_eq]
      | some sec =>
        simp [add_config_relationship_eq, core_update_relationships]
  · simp [h]

theorem volume_mount_step_eq (idx : List (String × KubernetesResource))
    (r : KubernetesResource) (vm : VolumeMount) :
    volume_mount_step idx r vm =
      { r with relationships := r.relationships ++
          volume_mount_delta r.core (idx.map coreEntry) vm } := by
  unfold volume_mount_step volume_mount_delta
  obtain ⟨vnOpt⟩ := vm
  cases vnOpt with
  | none => simp
  | some vn =>
    by_cases h : (vn == "") = true
    · simp [h]
    · simp only [h, Bool.false_eq_true, ite_false]
      rw [foldl_relationship_step (mount_volume_step vn idx)
        (fun c vol => volume_config_delta c (idx.map coreEntry) vn vol)
        (mount_volume_step_eq vn idx) r.spec.volumes r]
      simp [core_spec]

theorem container_config_step_eq (idx : List (String × KubernetesResource))
    (r : KubernetesResource) (cont : Container) :
    container_config_step idx r cont =
      { r with relationships := r.relationships ++
          container_config_delta r.core (idx.map coreEntry) cont } := by
  unfold container_config_step container_config_delta
  rw [foldl_relationship_step (env_var_step idx)
    (fun c ev => env_var_delta c (idx.map coreEntry) ev)
    (env_var_step_eq idx) cont.env r]
  rw [foldl_relationship_step (volume_mount_step idx)
    (fun c vm => volume_mount_delta c (idx.map coreEntry) vm)
    (volume_mount_step_eq idx) cont.volumeMounts]
  simp [core_update_relationships]

theorem analyze_pod_config_relationships_eq (pod : KubernetesResource)
    (idx : List (String × KubernetesResource)) :
    analyze_pod_config_relationships pod idx =
      { pod with relationships := pod.relationships ++
          pod_config_delta pod.core (idx.map coreEntry) } := by
  unfold analyze_pod_config_relationships pod_config_delta
  rw [foldl_relationship_step (container_config_step idx)
    (fun c cont => container_config_delta c (idx.map coreEntry) cont)
    (container_config_step_eq idx) pod.spec.containers pod]
  simp [core_spec]

theorem pod_storage_step_eq (idx : List (String × KubernetesResource))
    (r : KubernetesResource) (vol : Volume) :
    pod_storage_step idx r vol =
      { r with relationships := r.relationships ++
          storage_volume_delta r.core (idx.map coreEntry) vol } := by
  unfold pod_storage_step storage_volume_delta
  cases hpc : vol.persistentVolumeClaim with
  | none => simp
  | some pvc_claim =>
    cases hcn : pvc_claim.claimName with
    | none => simp [hcn]
    | some claim_name =>
      simp only [hcn]
      by_cases h : (claim_name == "") = true
      · simp [h]
      · simp only [h, Bool.false_eq_true, ite_false, core_metadata]
        have h2 := (index_get_core idx
          ("PersistentVolumeClaim/" ++ optStr r.metadata.nspace ++ "/"
            ++ claim_name)).symm
        cases hg : index_get idx
            ("PersistentVolumeClaim/" ++ optStr r.metadata.nspace ++ "/"
              ++ claim_name) with
        | none =>
          rw [hg] at h2
          simp at h2
          rw [h2]
          simp
        | some pvc =>
          rw [hg] at h2
          simp at h2
          rw [h2]
          simp [KubernetesResource.add_relationship, ref_core]

theorem analyze_pod_storage_relationships_eq (pod : KubernetesResource)
    (idx : List (String × KubernetesResource)) :
    analyze_pod_storage_relationships pod idx =
      { pod with relationships := pod.relationships ++
          pod_storage_delta pod.core (idx.map coreEntry) } := by
  unfold analyze_pod_storage_relationships pod_storage_delta
  rw [foldl_relationship_step (pod_storage_step idx)
    (fun c vol => storage_volume_delta c (idx.map coreEntry) vol)
    (pod_storage_step_eq idx) pod.spec.volumes pod]
  simp [core_spec]

theorem analyze_pod_serviceaccount_relationships_eq (pod : KubernetesResource)
    (idx : List (String × KubernetesResource)) :
    analyze_pod_serviceaccount_relationships pod idx =
      { pod with relationships := pod.relationships ++
          pod_sa_delta pod.core (idx.map coreEntry) } := by
  unfold analyze_pod_serviceaccount_relationships pod_sa_delta
  simp only [KubernetesResource.service_account, core_spec, core_metadata]
  by_cases h : (pod.spec.serviceAccountName.getD "default" != "" &&
      pod.spec.serviceAccountName.getD "default" != "default") = true
  · simp only [h, ite_true]
    have h2 := (index_get_core idx
      ("ServiceAccount/" ++ optStr pod.metadata.nspace ++ "/"
        ++ pod.spec.serviceAccountName.getD "default")).symm
    cases hg : index_get idx
        ("ServiceAccount/" ++ optStr pod.metadata.nspace ++ "/"
          ++ pod.spec.serviceAccountName.getD "default") with
    | none =>
      rw [hg] at h2
      simp at h2
      rw [h2]
      simp
    | some sa =>
      rw [hg] at h2
      simp at h2
      rw [h2]
      simp [KubernetesResource.add_relationship, ref_core]
  · simp [h]

theorem analyze_pod_node_relationships_eq (pod : KubernetesResource)
    (idx : List (String × KubernetesResource)) :
    analyze_pod_node_relationships pod idx =
      { pod with relationships := pod.relationships ++
          pod_node_delta pod.core (idx.map coreEntry) } := by
  unfold analyze_pod_node_relationships pod_node_delta
  simp only [core_spec]
  cases hnn : pod.spec.nodeName with
  | none => simp
  | some node_name =>
    by_cases h : (node_name == "") = true
    · simp [h]
    · simp only [h, Bool.false_eq_true, ite_false]
      have h2 := (index_get_core idx ("Node/" ++ node_name)).symm
      cases hg : index_get idx ("Node/" ++ node_name) with
      | none =>
        rw [hg] at h2
        simp at h2
        rw [h2]
        simp
      | some node =>
        rw [hg] at h2
        simp at h2
        rw [h2]
        simp [KubernetesResource.add_relationship, ref_core]

theorem analyze_pod_relationships_eq (rs : List KubernetesResource)
    (idx : List (String × KubernetesResource)) :
    analyze_pod_relationships rs idx =
      rs.map (fun r =>
        { r with relationships := r.relationships ++
            (if r.kind == "Pod" then
              pod_config_delta r.core (idx.map coreEntry) ++
                pod_storage_delta r.core (idx.map coreEntry) ++
                pod_sa_delta r.core (idx.map coreEntry) ++
                pod_node_delta r.core (idx.map coreEntry)
            else []) }) := by
  unfold analyze_pod_relationships
  refine List.map_congr_left (fun r _ => ?_)
  by_cases h : r.kind == "Pod"
  · simp only [h, ite_true]
    rw [analyze_pod_config_relationships_eq,
      analyze_pod_storage_relationships_eq,
      analyze_pod_serviceaccount_relationships_eq,
      analyze_pod_node_relationships_eq]
    simp [core_update_relationships]
  · simp [h]

theorem analyze_storage_relationships_eq (rs : List KubernetesResource)
    (idx : List (String × KubernetesResource)) :
    analyze_storage_relationships rs idx =
      rs.map (fun r =>
        { r with relationships := r.relationships ++
            (if r.kind == "PersistentVolumeClaim" then
              pvc_binds_delta r.core (idx.map coreEntry)
            else []) }) := by
  unfold analyze_storage_relationships pvc_binds_delta
  refine List.map_congr_left (fun r _ => ?_)
  by_cases h : r.kind == "PersistentVolumeClaim"
  · simp only [h, ite_true, core_status]
    cases hst : r.status with
    | none => simp [← hst]
    | some st =>
      cases hvn : st.volumeName with
      | none => simp [hvn, ← hst]
      | some volume_name =>
        simp only [hvn]
        have h2 := (index_get_core idx ("PersistentVolume/" ++ volume_name)).symm
        cases hg : index_get idx ("PersistentVolume/" ++ volume_name) with
        | none =>
          rw [hg] at h2
          simp at h2
          rw [h2]
          simp [← hst]
        | some pv =>
          rw [hg] at h2
          simp at h2
          rw [h2]
          simp [← hst, KubernetesResource.add_relationship, ref_core]
  · simp [h]

theorem rbac_subject_step_eq (idx : List (String × KubernetesResource))
    (r : KubernetesResource) (subject : Subject) :
    rbac_subject_step idx r subject =
      { r with relationships := r.relationships ++
          rbac_subject_delta r.core (idx.map coreEntry) subject } := by
  unfold rbac_subject_step rbac_subject_delta
  by_cases hk : (subject.kind == some "ServiceAccount") = true
  · simp only [hk, ite_true, core_metadata]
    cases hsn : subject.nspace with
    | none =>
      have h2 := (index_get_core idx
        ("ServiceAccount/" ++ optStr r.metadata.nspace ++ "/"
          ++ optStr subject.name)).symm
      cases hg : index_get idx
          ("ServiceAccount/" ++ optStr r.metadata.nspace ++ "/"
            ++ optStr subject.name) with
      | none =>
        rw [hg] at h2
        simp at h2
        rw [h2]
        simp
      | some sa =>
        rw [hg] at h2
        simp at h2
        rw [h2]
        simp [KubernetesResource.add_relationship, ref_core]
    | some v =>
      have h2 := (index_get_core idx
        ("ServiceAccount/" ++ optStr (some v) ++ "/" ++ optStr subject.name)).symm
      cases hg : index_get idx
          ("ServiceAccount/" ++ optStr (some v) ++ "/" ++ optStr subject.name) with
      | none =>
        rw [hg] at h2
        simp at h2
        rw [h2]
        simp
      | some sa =>
        rw [hg] at h2
        simp at h2
        rw [h2]
        simp [KubernetesResource.add_relationship, ref_core]
  · simp [hk]

theorem analyze_rbac_relationships_eq (rs : List KubernetesResource)
    (idx : List (String × KubernetesResource)) :
    analyze_rbac_relationships rs idx =
      rs.map (fun r =>
        { r with relationships := r.relationships ++
            (if r.kind == "RoleBinding" then
              rbac_delta r.core (idx.map coreEntry)
            else []) }) := by
  unfold analyze_rbac_relationships rbac_delta
  refine List.map_congr_left (fun r _ => ?_)
  by_cases h : r.kind == "RoleBinding"
  · simp only [h, ite_true]
    rw [foldl_relationship_step (rbac_subject_step idx)
      (fun c s => rbac_subject_delta c (idx.map coreEntry) s)
      (rbac_subject_step_eq idx) r.spec.subjects r]
    simp [core_spec]
  · simp [h]

theorem map_core_of_rel_update (rs : List KubernetesResource)
    (f : KubernetesResource → List ResourceRelationship) :
    (rs.map (fun r => { r with relationships := f r })).map
        KubernetesResource.core = rs.map KubernetesResource.core := by
  simp [List.map_map, Function.comp, core_update_relationships]

theorem run_passes_eq (rs : List KubernetesResource)
    (idx : List (String × KubernetesResource)) :
    analyze_rbac_relationships (analyze_storage_relationships
      (analyze_pod_relationships (analyze_service_relationships
        (analyze_ownership_relationships rs) idx) idx) idx) idx =
      rs.map (fun r =>
        { r with relationships := r.relationships ++
            (total_delta r.core (rs.map KubernetesResource.core)
              (idx.map coreEntry)) }) := by
  rw [analyze_ownership_relationships_eq, analyze_service_relationships_eq,
    analyze_pod_relationships_eq, analyze_storage_relationships_eq,
    analyze_rbac_relationships_eq, map_core_of_rel_update]
  simp only [List.map_map]
  refine List.map_congr_left (fun r _ => ?_)
  simp [Function.comp, core_update_relationships, total_delta, core_kind]

theorem assess_update_rels (r : KubernetesResource)
    (L : List ResourceRelationship) :
    assess_resource_health { r with relationships := L } =
      assess_resource_health r := by
  unfold assess_resource_health assess_pod_health assess_service_health
  rfl

theorem core_update_derived (r : KubernetesResource)
    (L : List ResourceRelationship) (h : ResourceStatus) (i : List String) :
    ({ r with relationships := L, health_status := h, issues := i } :
      KubernetesResource).core = r.core := rfl

theorem analyze_cluster_resources_eq (cs : ClusterState) :
    (analyze_cluster cs).resources =
      cs.resources.map (fun r =>
        { r with
          relationships := r.relationships ++
            (total_delta r.core (cs.resources.map KubernetesResource.core)
              (build_core_index (cs.resources.map KubernetesResource.core))),
          health_status := (assess_resource_health r).1,
          issues := (assess_resource_health r).2 }) := by
  unfold analyze_cluster collect_cluster_relationships generate_summary
    analyze_resource_health
  simp only []
  rw [run_passes_eq, build_index_map_core]
  simp only [List.map_map]
  refine List.map_congr_left (fun r _ => ?_)
  simp [Function.comp, assess_update_rels]

theorem analyze_cluster_relationships_eq (cs : ClusterState) :
    (analyze_cluster cs).relationships =
      (cs.resources.map (fun r =>
        r.relationships ++
          total_delta r.core (cs.resources.map KubernetesResource.core)
            (build_core_index (cs.resources.map KubernetesResource.core)))).flatten := by
  unfold analyze_cluster collect_cluster_relationships generate_summary
  simp only []
  rw [run_passes_eq, build_index_map_core]
  rw [foldl_append_eq_flatten (fun r : KubernetesResource => r.relationships)]
  simp [List.map_map, Function.comp_def]

theorem analyze_cluster_cores_eq (cs : ClusterState) :
    (analyze_cluster cs).resources.map KubernetesResource.core =
      cs.resources.map KubernetesResource.core := by
  rw [analyze_cluster_resources_eq]
  simp [List.map_map, Function.comp, core_update_derived]

theorem flatten_double_length {β : Type}
    (rel D : β → List ResourceRelationship) (rs : List β)
    (h : ∀ r ∈ rs, rel r = []) :
    ((rs.map (fun r => (rel r ++ D r) ++ D r)).flatten).length =
      2 * ((rs.map (fun r => rel r ++ D r)).flatten).length := by
  induction rs with
  | nil => simp
  | cons x xs ih =>
    have hx := h x (List.mem_cons_self x xs)
    have ih' := ih (fun r hr => h r (List.mem_cons_of_mem x hr))
    simp only [List.map_cons, List.flatten_cons, List.length_append, ih', hx,
      List.nil_append]
    omega

theorem mem_ownership_delta_type (c : ResourceCore) (e : ResourceRelationship)
    (he : e ∈ ownership_delta c) :
    e.relationship_type = RelationshipType.depends_on := by
  unfold ownership_delta at he
  rw [mem_foldl_append] at he
  obtain ⟨oref, _, he⟩ := he
  unfold owner_reference_edge at he
  repeat' split at he
  all_goals simp_all

theorem mem_config_edge_type (c : ResourceCore) (nm : Option String)
    (kd : String) (cidx : List (String × ResourceCore))
    (e : ResourceRelationship) (he : e ∈ config_edge c nm kd cidx) :
    e.relationship_type = RelationshipType.uses := by
  unfold config_edge at he
  repeat' split at he
  all_goals simp_all

theorem mem_env_var_delta_type (c : ResourceCore)
    (cidx : List (String × ResourceCore)) (ev : EnvVar)
    (e : ResourceRelationship) (he : e ∈ env_var_delta c cidx ev) :
    e.relationship_type = RelationshipType.uses := by
  unfold env_var_delta at he
  split at he
  · simp at he
  · rw [List.mem_append] at he
    rcases he with he | he
    · split at he
      · exact mem_config_edge_type _ _ _ _ _ he
      · simp at he
    · split at he
      · exact mem_config_edge_type _ _ _ _ _ he
      · simp at he

theorem mem_volume_config_delta_type (c : ResourceCore)
    (cidx : List (String × ResourceCore)) (vn : String) (vol : Volume)
    (e : ResourceRelationship) (he : e ∈ volume_config_delta c cidx vn vol) :
    e.relationship_type = RelationshipType.uses := by
  unfold volume_config_delta at he
  split at he
  · rw [List.mem_append] at he
    rcases he with he | he
    · split at he
      · exact mem_config_edge_type _ _ _ _ _ he
      · simp at he
    · split at he
      · exact mem_config_edge_type _ _ _ _ _ he
      · simp at he
  · simp at he

theorem mem_volume_mount_delta_type (c : ResourceCore)
    (cidx : List (String × ResourceCore)) (vm : VolumeMount)
    (e : ResourceRelationship) (he : e ∈ volume_mount_delta c cidx vm) :
    e.relationship_type = RelationshipType.uses := by
  unfold volume_mount_delta at he
  split at he
  · simp at he
  · split at he
    · simp at he
    · rw [mem_foldl_append] at he
      obtain ⟨vol, _, he⟩ := he
      exact mem_volume_config_delta_type _ _ _ _ _ he

theorem mem_container_config_delta_type (c : ResourceCore)
    (cidx : List (String × ResourceCore)) (cont : Container)
    (e : ResourceRelationship) (he : e ∈ container_config_delta c cidx cont) :
    e.relationship_type = RelationshipType.uses := by
  unfold container_config_delta at he
  rw [List.mem_append] at he
  rcases he with he | he
  · rw [mem_foldl_append] at he
    obtain ⟨ev, _, he⟩ := he
    exact mem_env_var_delta_type _ _ _ _ he
  · rw [mem_foldl_append] at he
    obtain ⟨vm, _, he⟩ := he
    exact mem_volume_mount_delta_type _ _ _ _ he

theorem mem_pod_config_delta_type (c : ResourceCore)
    (cidx : List (String × ResourceCore)) (e : ResourceRelationship)
    (he : e ∈ pod_config_delta c cidx) :
    e.relationship_type = RelationshipType.uses := by
  unfold pod_config_delta at he
  rw [mem_foldl_append] at he
  obtain ⟨cont, _, he⟩ := he
  exact mem_container_config_delta_type _ _ _ _ he

theorem mem_storage_volume_delta_type (c : ResourceCore)
    (cidx : List (String × ResourceCore)) (vol : Volume)
    (e : ResourceRelationship) (he : e ∈ storage_volume_delta c cidx vol) :
    e.relationship_type = RelationshipType.uses := by
  unfold storage_volume_delta at he
  repeat' split at he
  all_goals simp_all

theorem mem_pod_storage_delta_type (c : ResourceCore)
    (cidx : List (String × ResourceCore)) (e : ResourceRelationship)
    (he : e ∈ pod_storage_delta c cidx) :
    e.relationship_type = RelationshipType.uses := by
  unfold pod_storage_delta at he
  rw [mem_foldl_append] at he
  obtain ⟨vol, _, he⟩ := he
  exact mem_storage_volume_delta_type _ _ _ _ he

theorem mem_pod_sa_delta_type (c : ResourceCore)
    (cidx : List (String × ResourceCore)) (e : ResourceRelationship)
    (he : e ∈ pod_sa_delta c cidx) :
    e.relationship_type = RelationshipType.uses := by
  unfold pod_sa_delta at he
  split at he
  · revert he
    cases core_index_get cidx
        ("ServiceAccount/" ++ optStr c.metadata.nspace ++ "/"
          ++ c.spec.serviceAccountName.getD "default") with
    | none => intro he; simp_all
    | some sa => intro he; simp_all
  · simp at he

theorem mem_pod_node_delta_type (c : ResourceCore)
    (cidx : List (String × ResourceCore)) (e : ResourceRelationship)
    (he : e ∈ pod_node_delta c cidx) :
    e.relationship_type = RelationshipType.depends_on := by
  unfold pod_node_delta at he
  repeat' split at he
  all_goals simp_all

theorem mem_pvc_binds_delta_type (c : ResourceCore)
    (cidx : List (String × ResourceCore)) (e : ResourceRelationship)
    (he : e ∈ pvc_binds_delta c cidx) :
    e.relationship_type = RelationshipType.binds := by
  unfold pvc_binds_delta at he
  repeat' split at he
  all_goals simp_all

theorem mem_rbac_subject_delta_type (c : ResourceCore)
    (cidx : List (String × ResourceCore)) (subject : Subject)
    (e : ResourceRelationship) (he : e ∈ rbac_subject_delta c cidx subject) :
    e.relationship_type = RelationshipType.references := by
  unfold rbac_subject_delta at he
  split at he
  · revert he
    cases core_index_get cidx
        ("ServiceAccount/" ++
          optStr (match subject.nspace with
            | some v => some v
            | none => c.metadata.nspace) ++ "/"
          ++ optStr subject.name) with
    | none => intro he; simp_all
    | some sa => intro he; simp_all
  · simp at he

theorem mem_rbac_delta_type (c : ResourceCore)
    (cidx : List (String × ResourceCore)) (e : ResourceRelationship)
    (he : e ∈ rbac_delta c cidx) :
    e.relationship_type = RelationshipType.references := by
  unfold rbac_delta at he
  rw [mem_foldl_append] at he
  obtain ⟨s, _, he⟩ := he
  exact mem_rbac_subject_delta_type _ _ _ _ he

theorem mem_total_delta_cases (c : ResourceCore) (cores : List ResourceCore)
    (cidx : List (String × ResourceCore)) (e : ResourceRelationship)
    (he : e ∈ total_delta c cores cidx) :
    e ∈ service_delta c cores ∨
      e.relationship_type = RelationshipType.depends_on ∨
      e.relationship_type = RelationshipType.uses ∨
      e.relationship_type = RelationshipType.binds ∨
      e.relationship_type = RelationshipType.references := by
  unfold total_delta at he
  simp only [List.append_assoc, List.mem_append] at he
  rcases he with he | he | he | he | he
  · exact Or.inr (Or.inl (mem_ownership_delta_type c e he))
  · exact Or.inl he
  · split at he
    · simp only [List.append_assoc, List.mem_append] at he
      rcases he with he | he | he | he
      · exact Or.inr (Or.inr (Or.inl (mem_pod_config_delta_type _ _ _ he)))
      · exact Or.inr (Or.inr (Or.inl (mem_pod_storage_delta_type _ _ _ he)))
      · exact Or.inr (Or.inr (Or.inl (mem_pod_sa_delta_type _ _ _ he)))
      · exact Or.inr (Or.inl (mem_pod_node_delta_type _ _ _ he))
    · simp at he
  · split at he
    · exact Or.inr (Or.inr (Or.inr (Or.inl (mem_pvc_binds_delta_type _ _ _ he))))
    · simp at he
  · split at he
    · exact Or.inr (Or.inr (Or.inr (Or.inr (mem_rbac_delta_type _ _ _ he))))
    · simp at he

theorem selects_edge_mem_service_delta (c pc : ResourceCore)
    (cores : List ResourceCore) (hk : (c.kind == "Service") = true)
    (hsel : c.spec.selector.isEmpty = false) (hpc : pc ∈ cores)
    (hkp : (pc.kind == "Pod") = true)
    (hm : pod_matches_service c pc = true) :
    selects_edge c pc ∈ service_delta c cores := by
  unfold service_delta
  rw [if_pos hk, if_neg (by simp [hsel])]
  rw [mem_foldl_append]
  refine ⟨pc, List.mem_filter.mpr ⟨hpc, hkp⟩, ?_⟩
  simp [hm]

theorem exposes_edge_mem_service_delta (c sc : ResourceCore)
    (cores : List ResourceCore) (hkp : (c.kind == "Pod") = true)
    (hknp : (c.kind == "Service") = false)
    (hsc : sc ∈ cores) (hks : (sc.kind == "Service") = true)
    (hsel : sc.spec.selector.isEmpty = false)
    (hm : pod_matches_service sc c = true) :
    exposes_edge c sc ∈ service_delta c cores := by
  unfold service_delta
  rw [if_neg (by simp [hknp]), if_pos hkp]
  rw [mem_foldl_append]
  refine ⟨sc, List.mem_filter.mpr ⟨hsc, hks⟩, ?_⟩
  simp [hm, hsel]

theorem mem_service_delta_selects_inv (c : ResourceCore)
    (cores : List ResourceCore) (e : ResourceRelationship)
    (he : e ∈ service_delta c cores)
    (ht : e.relationship_type = RelationshipType.selects) :
    ∃ pc ∈ cores, (pc.kind == "Pod") = true ∧
      pod_matches_service c pc = true ∧ e = selects_edge c pc := by
  unfold service_delta at he
  split at he
  · split at he
    · simp at he
    · rw [mem_foldl_append] at he
      obtain ⟨pc, hpc, he⟩ := he
      rw [List.mem_filter] at hpc
      by_cases hm : pod_matches_service c pc = true
      · rw [hm] at he
        simp at he
        exact ⟨pc, hpc.1, hpc.2, hm, he⟩
      · simp [hm] at he
  · split at he
    · rw [mem_foldl_append] at he
      obtain ⟨sc, _, he⟩ := he
      split at he
      · simp at he
        rw [he] at ht
        simp [exposes_edge] at ht
      · simp at he
    · simp at he

/-!
Claim theorems.
-/

/-- Claim C1 (code_bug evidence): the fixture pod's only volume claims the
PVC "data-pvc"; that PVC exists in the parsed set, in the pod's namespace;
yet the analyzer emits no USES edge — indeed no relationship at all.  The
cause is visible in the last two conjuncts: the index stores the PVC under
its full_name "PersistentVolumeClaim/data-pvc/default" (Kind/name/namespace),
while `_analyze_pod_storage_relationships` looks it up under
"PersistentVolumeClaim/default/data-pvc" (Kind/namespace/name), which is
absent, so the name-indexed lookup can never resolve a namespaced PVC whose
name differs from its namespace. -/
theorem pod_pvc_uses_edge_missing :
    c1_pvc ∈ c1_state.resources ∧
    c1_pvc.kind = "PersistentVolumeClaim" ∧
    c1_pvc.metadata.nspace = c1_pod.metadata.nspace ∧
    c1_pod.spec.volumes.map (fun v => v.persistentVolumeClaim) =
      [some { claimName := some c1_pvc.metadata.name }] ∧
    index_get (build_resource_index c1_state.resources)
      ("PersistentVolumeClaim/" ++ optStr c1_pod.metadata.nspace ++ "/"
        ++ "data-pvc") = none ∧
    index_get (build_resource_index c1_state.resources) c1_pvc.full_name =
      some c1_pvc ∧
    (analyze_cluster c1_state).relationships = [] := by
  decide

/-- Claim C3 counterexample: two references that agree on the identity
tuple (apiVersion, kind, name, namespace) — hence on the hash input — but
differ in uid are NOT equal, because the class inherits pydantic's
field-by-field equality over all five fields and overrides only
`__hash__`.  So the claimed "equal iff agree on the 4-tuple" fails. -/
theorem resource_reference_uid_equality_cex :
    ResourceReference.hash_input c3_ref1 = ResourceReference.hash_input c3_ref2 ∧
    ¬ (c3_ref1 = c3_ref2 ↔
        ResourceReference.hash_input c3_ref1 =
          ResourceReference.hash_input c3_ref2) := by
  decide

/-- Claim C3 amended: ResourceReference equality is field-by-field over all
five fields — the 4-tuple AND the uid; the hash input never depends on the
uid; and equal references always have equal hash inputs. -/
theorem resource_reference_equality_and_hash (r1 r2 : ResourceReference) :
    (r1 = r2 ↔
      (ResourceReference.hash_input r1 = ResourceReference.hash_input r2 ∧
        r1.uid = r2.uid)) ∧
    (∀ u, ResourceReference.hash_input { r1 with uid := u } =
      ResourceReference.hash_input r1) ∧
    (r1 = r2 →
      ResourceReference.hash_input r1 = ResourceReference.hash_input r2) := by
  refine ⟨?_, fun u => rfl, fun h => by rw [h]⟩
  constructor
  · intro h
    subst h
    exact ⟨rfl, rfl⟩
  · rintro ⟨h4, hu⟩
    obtain ⟨a1, k1, n1, s1, u1⟩ := r1
    obtain ⟨a2, k2, n2, s2, u2⟩ := r2
    simp [ResourceReference.hash_input] at h4 hu ⊢
    simp_all

/-- Claim C3 amended, witnessed at a concrete pair. -/
theorem resource_reference_equality_and_hash_witness :
    c3_ref1 = { api_version := "v1", kind := "Pod", name := "web",
                nspace := some "default", uid := some "uid-1" } :=
  (resource_reference_equality_and_hash c3_ref1
    { api_version := "v1", kind := "Pod", name := "web",
      nspace := some "default", uid := some "uid-1" }).1.mpr
    ⟨by decide, by decide⟩

/-- Claim C4: a resource with a deletion timestamp is assessed WARNING and
its issue list gains exactly "Resource is being deleted"; the equation
holds for every such resource whatever its kind, phase, selector or
conditions, which is the short-circuit of all other health rules.  On a
freshly parsed resource (empty issues) the final list is exactly the
deletion message. -/
theorem deletion_timestamp_forces_warning (r : KubernetesResource)
    (h : r.metadata.deletion_timestamp.isSome = true) :
    assess_resource_health r =
      (ResourceStatus.warning, r.issues ++ ["Resource is being deleted"]) ∧
    (r.issues = [] →
      (assess_resource_health r).2 = ["Resource is being deleted"]) := by
  constructor
  · unfold assess_resource_health
    simp [h]
  · intro hi
    unfold assess_resource_health
    simp [h, hi]

/-- Claim C4, witnessed at a resource that also carries a failing Ready
condition: the deletion rule still wins. -/
theorem deletion_timestamp_forces_warning_witness :
    (assess_resource_health c4_resource).2 = ["Resource is being deleted"] :=
  (deletion_timestamp_forces_warning c4_resource (by decide)).2 (by decide)

theorem summary_fold_total (rs : List KubernetesResource) (acc : SummaryAcc) :
    (rs.foldl summaryStep acc).health_status.total =
      acc.health_status.total + rs.length := by
  induction rs generalizing acc with
  | nil => simp
  | cons r rs ih =>
    rw [List.foldl_cons, ih]
    unfold summaryStep
    cases hr : r.health_status <;>
      simp [StatusCounts.inc, StatusCounts.total] <;> omega

/-- Claim C10: generate_summary stores a summary whose total_resources is
the length of the resource list, whose total_relationships is the length
of the relationship list, and whose four per-health-status counts sum to
total_resources (every resource's health status is exactly one of the four
verdicts, so each resource is counted once). -/
theorem generate_summary_totals (cs : ClusterState) :
    (generate_summary cs).summary = some (computeSummary cs) ∧
    (computeSummary cs).total_resources = cs.resources.length ∧
    (computeSummary cs).total_relationships = cs.relationships.length ∧
    (computeSummary cs).health_status.healthy +
        (computeSummary cs).health_status.warning +
        (computeSummary cs).health_status.error +
        (computeSummary cs).health_status.unknown = cs.resources.length := by
  refine ⟨rfl, rfl, rfl, ?_⟩
  have h2 : (computeSummary cs).health_status =
      (cs.resources.foldl summaryStep {}).health_status := rfl
  rw [h2]
  have h := summary_fold_total cs.resources {}
  unfold StatusCounts.total at h
  simp only [SummaryAcc.health_status] at h
  omega

theorem parse_single_resource_wfs (st : ParseStats) (d : RawDoc)
    (h : wellFormedSupported d = true) :
    parse_single_resource st d =
      (some d.toResource, { st with parsed_count := st.parsed_count + 1 }) := by
  unfold wellFormedSupported at h
  cases hk : d.kind with
  | none => rw [hk] at h; simp at h
  | some k =>
    rw [hk] at h
    simp only [Bool.and_eq_true, bne_iff_ne, ne_eq] at h
    obtain ⟨⟨hm, hne, hc⟩, hv⟩ := h
    have hmem : k ∈ SUPPORTED_KINDS := by simpa using hc
    simp [parse_single_resource, hk, hm, hne, hmem, hv]

theorem parse_single_resource_unsupported (st : ParseStats) (d : RawDoc)
    (h : unsupportedKind d = true) :
    parse_single_resource st d =
      (none, { st with skipped_count := st.skipped_count + 1 }) := by
  unfold unsupportedKind at h
  cases hk : d.kind with
  | none => rw [hk] at h; simp at h
  | some k =>
    rw [hk] at h
    simp only [Bool.and_eq_true, Bool.not_eq_true'] at h
    obtain ⟨hm, hc⟩ := h
    have hmem : ¬ k ∈ SUPPORTED_KINDS := by simpa using hc
    by_cases hke : (k == "") = true
    · simp [parse_single_resource, hk, hm, hke]
    · simp [parse_single_resource, hk, hm, hke, hmem]

theorem wfs_not_unsupported (d : RawDoc)
    (h : wellFormedSupported d = true) : unsupportedKind d = false := by
  unfold wellFormedSupported at h
  unfold unsupportedKind
  cases hk : d.kind with
  | none => rw [hk] at h; simp at h
  | some k =>
    rw [hk] at h
    simp only [Bool.and_eq_true, bne_iff_ne, ne_eq] at h
    have hmem : k ∈ SUPPORTED_KINDS := by simpa using h.1.2.2
    simp [hmem]

theorem unsupported_not_wfs (d : RawDoc)
    (h : unsupportedKind d = true) : wellFormedSupported d = false := by
  unfold unsupportedKind at h
  unfold wellFormedSupported
  cases hk : d.kind with
  | none => simp [hk]
  | some k =>
    rw [hk] at h
    simp only [Bool.and_eq_true, Bool.not_eq_true'] at h
    have hmem : ¬ k ∈ SUPPORTED_KINDS := by simpa using h.2
    simp [hk, hmem]

theorem parse_items_fold (items : List RawDoc)
    (h : ∀ d ∈ items, wellFormedSupported d = true ∨ unsupportedKind d = true)
    (cs : ClusterState) (st : ParseStats) :
    (items.foldl parseItemStep (cs, st)).1.resources.length =
        cs.resources.length + items.countP (fun d => wellFormedSupported d) ∧
    (items.foldl parseItemStep (cs, st)).2.parsed_count =
        st.parsed_count + items.countP (fun d => wellFormedSupported d) ∧
    (items.foldl parseItemStep (cs, st)).2.skipped_count =
        st.skipped_count + items.countP (fun d => unsupportedKind d) ∧
    (items.foldl parseItemStep (cs, st)).2.error_count = st.error_count := by
  induction items generalizing cs st with
  | nil => simp
  | cons d items ih =>
    have hd := h d (List.mem_cons_self d items)
    have hrest := fun x hx => h x (List.mem_cons_of_mem d hx)
    rcases hd with hd | hd
    · have hnu := wfs_not_unsupported d hd
      have hstep : parseItemStep (cs, st) d =
          (cs.add_resource d.toResource,
            { st with parsed_count := st.parsed_count + 1 }) := by
        unfold parseItemStep
        rw [parse_single_resource_wfs st d hd]
      rw [List.foldl_cons, hstep]
      have ih' := ih hrest (cs.add_resource d.toResource)
        { st with parsed_count := st.parsed_count + 1 }
      simp [List.countP_cons, hd, hnu, ClusterState.add_resource] at ih' ⊢
      omega
    · have hnw := unsupported_not_wfs d hd
      have hstep : parseItemStep (cs, st) d =
          (cs, { st with skipped_count := st.skipped_count + 1 }) := by
        unfold parseItemStep
        rw [parse_single_resource_unsupported st d hd]
      rw [List.foldl_cons, hstep]
      have ih' := ih hrest cs { st with skipped_count := st.skipped_count + 1 }
      simp [List.countP_cons, hd, hnw] at ih' ⊢
      omega

/-- Claim C6: parsing a List-wrapped export whose items are each either a
well-formed document of a supported kind, or a document of an unsupported
kind, yields exactly one resource per well-formed supported item (N), with
the fresh parser's counters ending at parsed == N, skipped == M and no
errors. -/
theorem parse_list_export_counts (items : List RawDoc)
    (h : ∀ d ∈ items, wellFormedSupported d = true ∨ unsupportedKind d = true) :
    (parse_kubectl_export {} (ExportDoc.listWrap items)).1.resources.length =
        items.countP (fun d => wellFormedSupported d) ∧
    (parse_kubectl_export {} (ExportDoc.listWrap items)).2.parsed_count =
        items.countP (fun d => wellFormedSupported d) ∧
    (parse_kubectl_export {} (ExportDoc.listWrap items)).2.skipped_count =
        items.countP (fun d => unsupportedKind d) ∧
    (parse_kubectl_export {} (ExportDoc.listWrap items)).2.error_count = 0 := by
  have h2 := parse_items_fold items h {} {}
  unfold parse_kubectl_export
  dsimp only
  rcases hfold : items.foldl parseItemStep ({}, {}) with ⟨cs', st'⟩
  rw [hfold] at h2
  simpa [generate_summary] using h2

/-- Claim C6, witnessed on a three-item export (Pod, Deployment, Service):
two resources parse, one is skipped, no errors. -/
theorem parse_list_export_counts_witness :
    (parse_kubectl_export {} (ExportDoc.listWrap c6_items)).1.resources.length = 2 ∧
    (parse_kubectl_export {} (ExportDoc.listWrap c6_items)).2.parsed_count = 2 ∧
    (parse_kubectl_export {} (ExportDoc.listWrap c6_items)).2.skipped_count = 1 ∧
    (parse_kubectl_export {} (ExportDoc.listWrap c6_items)).2.error_count = 0 := by
  have h := parse_list_export_counts c6_items (by decide)
  have h1 : c6_items.countP (fun d => wellFormedSupported d) = 2 := by decide
  have h2 : c6_items.countP (fun d => unsupportedKind d) = 1 := by decide
  exact ⟨h1 ▸ h.1, h1 ▸ h.2.1, h2 ▸ h.2.2.1, h.2.2.2⟩

/-- Claim C7: `_parse_single_resource` is total — every document returns
and bumps the counter total by exactly one (nothing raises out of the
call) — and the counters are routed as the spec says: a mapping with no
kind is skipped, a kind outside the allowlist is skipped, and a
supported-kind document that fails structural validation is an error. -/
theorem parse_single_resource_counters (st : ParseStats) (d : RawDoc) :
    ((parse_single_resource st d).2.total = st.total + 1) ∧
    (d.isMapping = true → d.kind = none →
      parse_single_resource st d =
        (none, { st with skipped_count := st.skipped_count + 1 })) ∧
    (∀ k, d.isMapping = true → d.kind = some k →
      SUPPORTED_KINDS.contains k = false →
      parse_single_resource st d =
        (none, { st with skipped_count := st.skipped_count + 1 })) ∧
    (∀ k, d.isMapping = true → d.kind = some k → (k == "") = false →
      SUPPORTED_KINDS.contains k = true → d.validates = false →
      parse_single_resource st d =
        (none, { st with error_count := st.error_count + 1 })) := by
  refine ⟨?_, ?_, ?_, ?_⟩
  · unfold parse_single_resource ParseStats.total
    repeat' split
    all_goals simp
    all_goals omega
  · intro hm hk
    simp [parse_single_resource, hm, hk]
  · intro k hm hk hc
    have hmem : ¬ k ∈ SUPPORTED_KINDS := by simpa using hc
    by_cases hke : (k == "") = true
    · simp [parse_single_resource, hm, hk, hke]
    · simp [parse_single_resource, hm, hk, hke, hmem]
  · intro k hm hk hke hc hv
    have hmem : k ∈ SUPPORTED_KINDS := by simpa using hc
    simp [parse_single_resource, hm, hk, hke, hmem, hv]

/-- Claim C7, witnessed on the three fixture documents. -/
theorem parse_single_resource_counters_witness :
    parse_single_resource {} c7_doc_missing_kind =
      (none, { skipped_count := 1 }) ∧
    parse_single_resource {} c7_doc_unsupported =
      (none, { skipped_count := 1 }) ∧
    parse_single_resource {} c7_doc_invalid =
      (none, { error_count := 1 }) :=
  ⟨(parse_single_resource_counters {} c7_doc_missing_kind).2.1 rfl rfl,
   (parse_single_resource_counters {} c7_doc_unsupported).2.2.1 "CronJob"
     rfl rfl (by decide),
   (parse_single_resource_counters {} c7_doc_invalid).2.2.2 "Pod"
     rfl rfl (by decide) (by decide) rfl⟩

theorem charListLe_total (as bs : List Char) :
    charListLe as bs = true ∨ charListLe bs as = true := by
  induction as generalizing bs with
  | nil => left; rfl
  | cons a as ih =>
    cases bs with
    | nil => right; rfl
    | cons b bs =>
      by_cases hab : a = b
      · subst hab
        rcases ih bs with h | h
        · left; simp [charListLe, h]
        · right; simp [charListLe, h]
      · rcases lt_or_gt_of_ne hab with h | h
        · left
          simp [charListLe, hab, h]
        · right
          have hba : ¬ b = a := fun e => hab e.symm
          simp [charListLe, hba, h]

theorem charListLe_trans (as bs cs : List Char)
    (h1 : charListLe as bs = true) (h2 : charListLe bs cs = true) :
    charListLe as cs = true := by
  induction as generalizing bs cs with
  | nil => rfl
  | cons a as ih =>
    cases bs with
    | nil => simp [charListLe] at h1
    | cons b bs =>
      cases cs with
      | nil => simp [charListLe] at h2
      | cons c cs =>
        by_cases hab : a = b
        · subst hab
          by_cases hac : a = c
          · subst hac
            simp only [charListLe, beq_self_eq_true, ite_true] at h1 h2 ⊢
            exact ih bs cs h1 h2
          · simp only [charListLe, beq_self_eq_true, ite_true] at h1
            simp only [charListLe, beq_iff_eq, hac, ite_false] at h2 ⊢
            exact h2
        · by_cases hbc : b = c
          · subst hbc
            simp only [charListLe, beq_iff_eq, hab, ite_false] at h1 ⊢
            exact h1
          · simp only [charListLe, beq_iff_eq, hab, hbc, ite_false,
              decide_eq_true_eq] at h1 h2
            have hac2 : a < c := lt_trans h1 h2
            have hac : ¬ a = c := ne_of_lt hac2
            simp only [charListLe, beq_iff_eq, hac, ite_false,
              decide_eq_true_eq]
            exact hac2

theorem str_le_total (a b : String) : str_le a b = true ∨ str_le b a = true :=
  charListLe_total a.toList b.toList

theorem str_le_trans (a b c : String) (h1 : str_le a b = true)
    (h2 : str_le b c = true) : str_le a c = true :=
  charListLe_trans a.toList b.toList c.toList h1 h2

/-- Claim C9 amended: discovery returns a list that is sorted in the
lexicographic string order, duplicate-free, and contains exactly the files
matching some pattern of the (possibly defaulted) pattern list; and for a
POSITIVE cap smaller than the number of matches, the selection is exactly
the first cap-many files of the sorted result.  (The cap 0 is falsy in
Python and truncates nothing — see the counterexample.) -/
theorem find_files_sorted_dedup_capped (dir : Directory)
    (patterns : List String) (recursive : Bool) :
    List.Sorted (fun a b => str_le a b = true)
        (find_kubernetes_files dir patterns recursive) ∧
    (find_kubernetes_files dir patterns recursive).Nodup ∧
    (∀ f, f ∈ find_kubernetes_files dir patterns recursive ↔
      ∃ p ∈ (if patterns.isEmpty then default_patterns else patterns),
        f ∈ dir.files ∧ fileMatches recursive p f = true) ∧
    (∀ m : Nat, 0 < m →
      m < (find_kubernetes_files dir patterns recursive).length →
      discover_file_selection dir patterns recursive (some m) =
        (find_kubernetes_files dir patterns recursive).take m ∧
      (discover_file_selection dir patterns recursive (some m)).length = m) := by
  refine ⟨?_, ?_, ?_, ?_⟩
  · unfold find_kubernetes_files
    exact @List.sorted_insertionSort String (fun a b => str_le a b = true) _
      ⟨fun a b => str_le_total a b⟩ ⟨fun a b c => str_le_trans a b c⟩ _
  · unfold find_kubernetes_files
    exact (List.perm_insertionSort (fun a b => str_le a b = true) _).symm.nodup
      (List.nodup_dedup _)
  · intro f
    unfold find_kubernetes_files
    rw [(List.perm_insertionSort (fun a b => str_le a b = true) _).mem_iff,
      List.mem_dedup, mem_foldl_append]
    simp [List.mem_filter]
  · intro m hm hlen
    have hcond : (m != 0 &&
        decide ((find_kubernetes_files dir patterns recursive).length > m)) = true := by
      simp only [Bool.and_eq_true, bne_iff_ne, ne_eq, decide_eq_true_eq]
      omega
    constructor
    · unfold discover_file_selection
      dsimp only
      rw [if_pos hcond]
    · unfold discover_file_selection
      dsimp only
      rw [if_pos hcond]
      rw [List.length_take]
      omega

/-- Claim C9 counterexample: with max_files = 0 supplied and five matching
files, the Python guard `if max_files and ...` treats the cap as falsy and
processes all five files, not zero. -/
theorem max_files_zero_cap_cex :
    (find_kubernetes_files c9_dir [] true).length = 5 ∧
    discover_file_selection c9_dir [] true (some 0) =
      find_kubernetes_files c9_dir [] true ∧
    (discover_file_selection c9_dir [] true (some 0)).length = 5 := by
  decide

/-- Claim C9 amended, witnessed on the five-file fixture with cap 3: the
first three files in sorted order are selected. -/
theorem find_files_sorted_dedup_capped_witness :
    discover_file_selection c9_dir [] true (some 3) =
      ["a.yaml", "b.yaml", "c.yml"] := by
  have h := (find_files_sorted_dedup_capped c9_dir [] true).2.2.2 3
    (by decide) (by decide)
  rw [h.1]
  decide

/-- Claim C2 counterexample: on a freshly parsed one-pod state whose pod
has one owner reference, the first analyzer run produces one relationship
and a second run on the already-analyzed state produces two — the
relationship list does not keep its size. -/
theorem analyze_cluster_double_run_cex :
    (analyze_cluster c2_state).relationships.length = 1 ∧
    (analyze_cluster (analyze_cluster c2_state)).relationships.length = 2 := by
  decide

/-- Claim C2 amended: the top-level relationship list is rebuilt, but the
passes append to each resource's own list again, and the rebuilt top-level
list is flattened from those lists; so on a freshly parsed state (every
resource starts with no relationships) a second run yields a top-level
list of exactly twice the size of the first run's. -/
theorem analyze_cluster_double_run_doubles (cs : ClusterState)
    (h : ∀ r ∈ cs.resources, r.relationships = []) :
    (analyze_cluster (analyze_cluster cs)).relationships.length =
      2 * (analyze_cluster cs).relationships.length := by
  rw [analyze_cluster_relationships_eq (analyze_cluster cs),
    analyze_cluster_cores_eq, analyze_cluster_resources_eq cs,
    analyze_cluster_relationships_eq cs]
  rw [List.map_map]
  have hd := flatten_double_length
    (fun r : KubernetesResource => r.relationships)
    (fun r : KubernetesResource => total_delta r.core
      (cs.resources.map KubernetesResource.core)
      (build_core_index (cs.resources.map KubernetesResource.core)))
    cs.resources h
  simpa [Function.comp_def] using hd

/-- Claim C2 amended, witnessed on the one-pod fixture. -/
theorem analyze_cluster_double_run_doubles_witness :
    (analyze_cluster (analyze_cluster c2_state)).relationships.length =
      2 * (analyze_cluster c2_state).relationships.length :=
  analyze_cluster_double_run_doubles c2_state (by decide)

/-- Claim C8: for every resource in the analyzed state and every
owner-reference entry with a truthy kind and name, the analyzer's
relationship list contains a DEPENDS_ON edge from the resource to a
reference built from the entry's kind and name (apiVersion defaulting to
"v1", uid unset), namespaced like the child.  No hypothesis requires any
resource of that kind and name to exist in the set — the ownership pass
never consults the index. -/
theorem owner_reference_edge_added (cs : ClusterState)
    (r : KubernetesResource) (oref : OwnerRef) (k n : String)
    (hr : r ∈ cs.resources) (ho : oref ∈ r.metadata.owner_references)
    (hk : oref.kind = some k) (hk2 : (k == "") = false)
    (hn : oref.name = some n) (hn2 : (n == "") = false) :
    ({ source := r.ref,
       target := { api_version := oref.apiVersion.getD "v1", kind := k,
                   name := n, nspace := r.metadata.nspace, uid := none },
       relationship_type := RelationshipType.depends_on,
       direction := RelationshipDirection.outbound,
       metadata := [("owner_reference", AttrVal.b true)] } :
      ResourceRelationship) ∈ (analyze_cluster cs).relationships := by
  rw [analyze_cluster_relationships_eq, List.mem_flatten]
  refine ⟨_, List.mem_map.mpr ⟨r, hr, rfl⟩, ?_⟩
  rw [List.mem_append]
  right
  unfold total_delta
  simp only [List.append_assoc, List.mem_append]
  left
  unfold ownership_delta
  rw [mem_foldl_append]
  refine ⟨oref, ho, ?_⟩
  unfold owner_reference_edge
  rw [hk, hn]
  have hcond : (k != "" && n != "") = true := by
    simp only [Bool.and_eq_true, bne_iff_ne, ne_eq]
    exact ⟨by simpa using hk2, by simpa using hn2⟩
  simp [hcond, owner_target, ResourceCore.ref, KubernetesResource.ref,
    KubernetesResource.core, core_metadata]

/-- Claim C8, witnessed on a ConfigMap owned by a Deployment that does not
exist in the parsed set: the DEPENDS_ON edge is present anyway. -/
theorem owner_reference_edge_added_witness :
    ({ source := c8_cm.ref,
       target := { api_version := "apps/v1", kind := "Deployment",
                   name := "dep1", nspace := some "prod", uid := none },
       relationship_type := RelationshipType.depends_on,
       direction := RelationshipDirection.outbound,
       metadata := [("owner_reference", AttrVal.b true)] } :
      ResourceRelationship) ∈ (analyze_cluster c8_state).relationships :=
  owner_reference_edge_added c8_state c8_cm
    { apiVersion := some "apps/v1", kind := some "Deployment",
      name := some "dep1", uid := some "u-1" } "Deployment" "dep1"
    (by decide) (by decide) rfl (by decide) rfl (by decide)

/-- Claim C5 counterexample: a Service with an EMPTY selector and a Pod in
the same namespace.  Every key of the selector is (vacuously) present in
the pod's labels with an identical value, so the claim as stated demands a
SELECTS and an EXPOSES edge; but the code skips any service whose selector
is falsy and the analyzed state holds no relationship at all. -/
theorem service_empty_selector_cex :
    c5_service.kind = "Service" ∧ c5_pod.kind = "Pod" ∧
    c5_pod.metadata.nspace = c5_service.metadata.nspace ∧
    labels_match_selector c5_pod.metadata.labels c5_service.spec.selector = true ∧
    (analyze_cluster c5_state).relationships = [] := by
  decide

/-- Claim C5 amended: restricted to a Service with a NON-EMPTY selector (a
falsy selector makes the pass skip the service), over a freshly parsed
state with pairwise distinct references: the analyzed relationship list
contains the SELECTS edge service-to-pod and the EXPOSES edge
pod-to-service exactly when the pod lives in the service's namespace and
every selector key appears in the pod's labels with an identical value. -/
theorem service_selector_edges_iff (cs : ClusterState)
    (s p : KubernetesResource)
    (h0 : ∀ r ∈ cs.resources, r.relationships = [])
    (huniq : ∀ r1 ∈ cs.resources, ∀ r2 ∈ cs.resources,
      KubernetesResource.ref r1 = KubernetesResource.ref r2 →
        KubernetesResource.core r1 = KubernetesResource.core r2)
    (hs : s ∈ cs.resources) (hp : p ∈ cs.resources)
    (hks : s.kind = "Service") (hkp : p.kind = "Pod")
    (hsel : s.spec.selector ≠ []) :
    (selects_edge s.core p.core ∈ (analyze_cluster cs).relationships ∧
      exposes_edge p.core s.core ∈ (analyze_cluster cs).relationships) ↔
      (p.metadata.nspace = s.metadata.nspace ∧
        labels_match_selector p.metadata.labels s.spec.selector = true) := by
  constructor
  · rintro ⟨hmem, _⟩
    rw [analyze_cluster_relationships_eq, List.mem_flatten] at hmem
    obtain ⟨l, hl, hel⟩ := hmem
    rw [List.mem_map] at hl
    obtain ⟨r', hr', rfl⟩ := hl
    rw [h0 r' hr', List.nil_append] at hel
    rcases mem_total_delta_cases _ _ _ _ hel with hsvc | ht | ht | ht | ht
    case _ =>
      obtain ⟨pc, hpc, hpck, hpcm, heq⟩ :=
        mem_service_delta_selects_inv _ _ _ hsvc rfl
      simp only [selects_edge, ResourceRelationship.mk.injEq] at heq
      obtain ⟨hsrc, htgt, -⟩ := heq
      have hcs : r'.core = s.core :=
        huniq r' hr' s hs hsrc.symm
      rw [List.mem_map] at hpc
      obtain ⟨r2, hr2, hr2e⟩ := hpc
      have hr2ref : KubernetesResource.ref r2 = KubernetesResource.ref p := by
        rw [← ref_core, ← ref_core, hr2e, ← htgt]
      have hcp : r2.core = p.core := huniq r2 hr2 p hp hr2ref
      rw [hr2e] at hcp
      rw [hcs, hcp] at hpcm
      unfold pod_matches_service at hpcm
      simp only [core_metadata, core_spec, Bool.and_eq_true, beq_iff_eq]
        at hpcm
      exact ⟨hpcm.1, hpcm.2⟩
    all_goals simp [selects_edge] at ht
  · rintro ⟨hns, hlab⟩
    have hmatch : pod_matches_service s.core p.core = true := by
      unfold pod_matches_service
      simp [core_metadata, core_spec, hns, hlab]
    have hkS : (s.core.kind == "Service") = true := by simp [core_kind, hks]
    have hkP : (p.core.kind == "Pod") = true := by simp [core_kind, hkp]
    have hkPS : (p.core.kind == "Service") = false := by simp [core_kind, hkp]
    have hselF : s.core.spec.selector.isEmpty = false := by
      rw [core_spec]
      cases hl : s.spec.selector with
      | nil => exact absurd hl hsel
      | cons a t => rfl
    constructor
    · rw [analyze_cluster_relationships_eq, List.mem_flatten]
      refine ⟨_, List.mem_map.mpr ⟨s, hs, rfl⟩, ?_⟩
      rw [List.mem_append]
      right
      unfold total_delta
      simp only [List.append_assoc, List.mem_append]
      right; left
      exact selects_edge_mem_service_delta s.core p.core _ hkS hselF
        (List.mem_map.mpr ⟨p, hp, rfl⟩) hkP hmatch
    · rw [analyze_cluster_relationships_eq, List.mem_flatten]
      refine ⟨_, List.mem_map.mpr ⟨p, hp, rfl⟩, ?_⟩
      rw [List.mem_append]
      right
      unfold total_delta
      simp only [List.append_assoc, List.mem_append]
      right; left
      exact exposes_edge_mem_service_delta p.core s.core _ hkP hkPS
        (List.mem_map.mpr ⟨s, hs, rfl⟩) hkS hselF hmatch

/-- Claim C5 amended, witnessed on a matching service/pod pair: both edges
are present after analysis. -/
theorem service_selector_edges_iff_witness :
    selects_edge c5w_service.core c5w_pod.core ∈
      (analyze_cluster c5w_state).relationships ∧
    exposes_edge c5w_pod.core c5w_service.core ∈
      (analyze_cluster c5w_state).relationships :=
  (service_selector_edges_iff c5w_state c5w_service c5w_pod (by decide)
    (by decide) (by decide) (by decide) rfl rfl (by decide)).mpr
    ⟨rfl, by decide⟩

end K8sAnalyzer
